import Mathlib

/-!
# lucoapi: the outbound send pipeline and session operations of `src/whatsapp.js`

A shallow embedding of the module `src/whatsapp.js`.

* The channel driver (`whatsapp-web.js` client) is external to the module.  It is
  modelled as a record of methods acting on an arbitrary driver world `W`: every
  method call answers with an outcome (a value, or the message of the error it
  rejects with), a successor world and the time the call took.
* The module-level variables (`client`, `qrCode`, `clientStatus`), the notification
  sink (`io.emit`), the credential directory (`fs.rmSync`), `Math.random` and a
  simulated clock are the fields of one `System` record, threaded explicitly.
* Every driver call, every `results.push` and every `setTimeout` is appended to a
  time-stamped log, so that statements such as "the driver's send is never invoked"
  are statements about that log.
* The driver events (`qr`, `ready`, `auth_failure`, `disconnected`, `error`) and the
  firing of a fire-and-forget timer are inputs of the session manager: each handler is
  a function on `System`, and every `setTimeout(callback, delay)` it makes is appended
  to the field `scheduled`.
* `console.log` / `console.error` have no effect on the modelled state and are
  omitted.
* Numbers are rationals.  The delay `jsAdd 3000 (jsMul Math.random() 2000)` is computed as the
  source computes it, in IEEE double precision: each product and sum is rounded to the
  nearest double, ties to even (`roundDouble`).
-/

namespace LucoApi

/-! ## Data model -/

/-- The object returned by `sendMessage`: `{ success, messageId, to }` on success and
`{ success, to, error }` on failure (an absent key is `none`; the key `to` is the
field `to_`). -/
structure SendResult where
  success : Bool
  messageId : Option String
  to_ : String
  error : Option String
deriving DecidableEq, Repr

/-- Answer of one driver method call: the outcome (`.error msg` when the promise is
rejected with an error whose `message` is `msg`), the driver world afterwards and the
time in milliseconds the call took on the simulated clock. -/
structure Reply (W : Type) (α : Type) where
  outcome : Except String α
  world : W
  elapsed : ℕ

/-- The driver methods used by the module.  `getState` resolves to a state string or
to `null` (`none`); `sendMessage` resolves to a message whose `id.id` is the returned
string; `init` is the driver's `initialize()`. -/
structure Client (W : Type) where
  getState : W → Reply W (Option String)
  isRegisteredUser : String → W → Reply W Bool
  sendMessage : String → String → W → Reply W String
  logout : W → Reply W Unit
  init : W → Reply W Unit

/-- One value of `Math.random()`: a number `r` with `0 ≤ r < 1` (every double in that
range is such a value). -/
structure Draw where
  val : ℚ
  nonneg : 0 ≤ val
  lt_one : val < 1

/-- Observable steps recorded in the log. -/
inductive Event where
  | getState
  | isRegisteredUser (chatId : String)
  | sendMessage (chatId : String) (message : String)
  | logout
  | push (result : SendResult)
  | setTimeout (ms : ℚ)
  | init
deriving DecidableEq

/-- The callbacks handed to a fire-and-forget `setTimeout`: the function
`startWithRetry` (lines 99 and 104) and the arrow function `() => client.initialize()`
(lines 59 and 71). -/
inductive Callback where
  | startWithRetry
  | clientInit
deriving DecidableEq

/-- Module state together with its environment.
`emitted` lists the `io.emit(event, payload)` calls made so far, `authDir` tells
whether the credential directory exists, `random` is the stream of future
`Math.random()` values, `clock` the simulated time in milliseconds and `log` the
time-stamped record of driver calls, result pushes and awaited timers.  `retries` is
the counter of `initWhatsApp` (line 84) and `scheduled` lists, in order, the
fire-and-forget `setTimeout(callback, delay)` calls made so far as pairs
`(delay, callback)`. -/
structure System (W : Type) where
  client : Option (Client W)
  qrCode : Option String
  clientStatus : String
  emitted : List (String × String)
  authDir : Bool
  random : ℕ → Draw
  world : W
  clock : ℚ
  log : List (ℚ × Event)
  retries : ℕ
  scheduled : List (ℕ × Callback)

variable {W : Type} {α : Type}

/-! ## Primitive steps -/

/-- An awaited driver call: it is logged at the time it is issued, the world moves on
and the clock advances by the time the call took. -/
def call (ev : Event) (method : W → Reply W α) (s : System W) :
    Except String α × System W :=
  let r := method s.world
  (r.outcome,
    { s with world := r.world, clock := s.clock + (r.elapsed : ℚ),
             log := s.log ++ [(s.clock, ev)] })

/-- The step `results.push(result)`. -/
def push (result : SendResult) (s : System W) : System W :=
  { s with log := s.log ++ [(s.clock, Event.push result)] }

/-- One evaluation of `Math.random()`. -/
def mathRandom (s : System W) : ℚ × System W :=
  ((s.random 0).val, { s with random := fun n => s.random (n + 1) })

/-- The step `await new Promise(resolve => setTimeout(resolve, ms))`: the timer is
logged when it is set and the caller resumes `ms` milliseconds later. -/
def sleep (ms : ℚ) (s : System W) : System W :=
  { s with clock := s.clock + ms, log := s.log ++ [(s.clock, Event.setTimeout ms)] }

/-! ## Double-precision arithmetic -/

/-- The spacing of the doubles around `x`: `2 ^ (e - 52)` where
`2 ^ e ≤ |x| < 2 ^ (e + 1)`, the exponent `e` being at least `-1022` (below that the
doubles are subnormal and equally spaced). -/
def ulp (x : ℚ) : ℚ :=
  (2 : ℚ) ^ (max (Int.log 2 |x|) (-1022) - 52)

/-- Rounding of `x` to the nearest multiple of `u`, a tie going to the even
multiple. -/
def roundToEven (u x : ℚ) : ℚ :=
  if x / u - (⌊x / u⌋ : ℚ) < 1 / 2 then (⌊x / u⌋ : ℚ) * u
  else if 1 / 2 < x / u - (⌊x / u⌋ : ℚ) then ((⌊x / u⌋ : ℚ) + 1) * u
  else if ⌊x / u⌋ % 2 = 0 then (⌊x / u⌋ : ℚ) * u
  else ((⌊x / u⌋ : ℚ) + 1) * u

/-- The double nearest to the rational `x` (round to nearest, ties to even).  Overflow
beyond the largest double is not modelled; the values rounded here stay below 5001. -/
def roundDouble (x : ℚ) : ℚ := roundToEven (ulp x) x

/-- The product `x * y` of two Numbers. -/
def jsMul (x y : ℚ) : ℚ := roundDouble (x * y)

/-- The sum `x + y` of two Numbers. -/
def jsAdd (x y : ℚ) : ℚ := roundDouble (x + y)

/-! ## String helpers -/

/-- The expression `to.replace(/[^0-9]/g, '')`: every character outside `0`-`9` is
removed. -/
def replaceNonDigits (to_ : String) : String :=
  String.mk (to_.data.filter Char.isDigit)

/-- The method `s.includes(pat)`: `pat` occurs in `s` as a contiguous substring. -/
def includes (s pat : String) : Bool :=
  decide (pat.data <:+: s.data)

/-- Rendering of a driver state inside a template literal: `null` prints as
`null`. -/
def render : Option String → String
  | none => "null"
  | some st => st

/-- The expression
`cleanNumber.includes('@c.us') ? cleanNumber : cleanNumber + '@c.us'`. -/
def chatIdOf (cleanNumber : String) : String :=
  if includes cleanNumber "@c.us" then cleanNumber else cleanNumber ++ "@c.us"

/-! ## `getWhatsAppClient`, `sendMessage`, `sendBulkMessage`, `disconnect` -/

/-- The function `getWhatsAppClient`: throws when `client` is unset. -/
def getWhatsAppClient (s : System W) : Except String (Client W) :=
  match s.client with
  | none => .error "WhatsApp client is not initialized."
  | some c => .ok c

/-- Lines 126-130 of `sendMessage`: the recipient is stripped of its non-digit
characters, rejected (`throw`) when fewer than 10 digits remain, and otherwise turned
into the chat address `chatId`. -/
def normalizeRecipient (to_ : String) : Except String String :=
  let cleanNumber := replaceNonDigits to_
  if cleanNumber = "" ∨ cleanNumber.length < 10 then
    .error ("Invalid phone number: " ++ to_)
  else
    .ok (chatIdOf cleanNumber)

/-- The body of the `try` block of `sendMessage` (lines 126-145): `.error msg` is a
`throw` (or a rejected driver call) whose error message is `msg`. -/
def sendMessageTry (client : Client W) (to_ message : String) (s : System W) :
    Except String SendResult × System W :=
  match normalizeRecipient to_ with
  | .error e => (.error e, s)
  | .ok chatId =>
    match call Event.getState client.getState s with
    | (.error e, s1) => (.error e, s1)
    | (.ok state, s1) =>
      if state ≠ some "CONNECTED" then
        (.error ("Client not ready, current state: " ++ render state), s1)
      else
        match call (Event.isRegisteredUser chatId) (client.isRegisteredUser chatId) s1 with
        | (.error e, s2) => (.error e, s2)
        | (.ok isRegistered, s2) =>
          if isRegistered = false then
            (.error ("Number " ++ to_ ++ " is not registered on WhatsApp"), s2)
          else
            match call (Event.sendMessage chatId message)
                (client.sendMessage chatId message) s2 with
            | (.error e, s3) => (.error e, s3)
            | (.ok id, s3) =>
              (.ok { success := true, messageId := some id, to_ := to_, error := none }, s3)

/-- The function `sendMessage` (lines 123-150).  The outer `.error` is an exception
raised to the caller; the `catch` block turns everything thrown inside `try` into a
failed result. -/
def sendMessage (to_ message : String) (s : System W) :
    Except String SendResult × System W :=
  match getWhatsAppClient s with
  | .error e => (.error e, s)
  | .ok client =>
    match sendMessageTry client to_ message s with
    | (.ok result, s1) => (.ok result, s1)
    | (.error msg, s1) =>
      (.ok { success := false, messageId := none, to_ := to_, error := some msg }, s1)

/-- The `for` loop of `sendBulkMessage` (lines 154-158) with `results` as an
accumulator. -/
def sendBulkLoop (message : String) :
    List String → List SendResult → System W → Except String (List SendResult) × System W
  | [], results, s => (.ok results, s)
  | number :: rest, results, s =>
    match sendMessage number message s with
    | (.error e, s1) => (.error e, s1)
    | (.ok result, s1) =>
      let s2 := push result s1
      let d := mathRandom s2
      sendBulkLoop message rest (results ++ [result])
        (sleep (jsAdd 3000 (jsMul d.1 2000)) d.2)

/-- The function `sendBulkMessage` (lines 152-160). -/
def sendBulkMessage (numbers : List String) (message : String) (s : System W) :
    Except String (List SendResult) × System W :=
  sendBulkLoop message numbers [] s

/-- The function `disconnect` (lines 185-197): the `catch` block rethrows. -/
def disconnect (s : System W) : Except String Unit × System W :=
  match getWhatsAppClient s with
  | .error e => (.error e, s)
  | .ok client =>
    match call Event.logout client.logout s with
    | (.error e, s1) => (.error e, s1)
    | (.ok _, s1) =>
      (.ok (),
        { s1 with clientStatus := "disconnected",
                  emitted := s1.emitted ++ [("status", "Disconnected")],
                  authDir := false })

/-! ## Observations on the log -/

/-- The log entry is a call of the driver's `sendMessage`. -/
def isSend : ℚ × Event → Bool
  | (_, Event.sendMessage _ _) => true
  | _ => false

/-- Number of driver sends in a piece of log. -/
def sendCount (l : List (ℚ × Event)) : ℕ := l.countP isSend

/-- The three checks that precede the driver send, read off the driver as
`sendMessage` queries it from system `s`: the recipient keeps at least 10 digits, the
live state is `CONNECTED`, and the address is registered (asked after the state
query). -/
def checksPass (c : Client W) (to_ : String) (s : System W) : Prop :=
  10 ≤ (replaceNonDigits to_).length ∧
  (c.getState s.world).outcome = .ok (some "CONNECTED") ∧
  (c.isRegisteredUser (replaceNonDigits to_ ++ "@c.us")
      (c.getState s.world).world).outcome = .ok true

/-- The log entry is a `setTimeout`. -/
def isTimer : ℚ × Event → Bool
  | (_, Event.setTimeout _) => true
  | _ => false

/-- The log entry is a `results.push`. -/
def isPush : ℚ × Event → Bool
  | (_, Event.push _) => true
  | _ => false

/-- Number of timers set in a piece of log. -/
def timerCount (l : List (ℚ × Event)) : ℕ := l.countP isTimer

/-- The times at which the driver's `sendMessage` is called in a piece of log. -/
def sendTimes (l : List (ℚ × Event)) : List ℚ := (l.filter isSend).map Prod.fst

/-- System `s1` is reached from `s` by the driver calls `calls` alone: the log grows
by `calls`, every call is stamped between the two clocks, none of them is a timer or a
push, at most one is a driver send, and the client handle and the random stream are
untouched. -/
structure CallsOnly (s s1 : System W) (calls : List (ℚ × Event)) : Prop where
  log : s1.log = s.log ++ calls
  client : s1.client = s.client
  random : s1.random = s.random
  clock : s.clock ≤ s1.clock
  stamps : ∀ p ∈ calls, s.clock ≤ p.1 ∧ p.1 ≤ s1.clock
  driver : ∀ p ∈ calls, isTimer p = false ∧ isPush p = false
  once : sendCount calls ≤ 1

/-! ## The session manager: event handlers, `startWithRetry`, status and challenge -/

/-- The call `io.emit(event, payload)`. -/
def emit (event payload : String) (s : System W) : System W :=
  { s with emitted := s.emitted ++ [(event, payload)] }

/-- The call `fs.rmSync(<credential directory>, { recursive: true, force: true })`. -/
def rmSync (s : System W) : System W :=
  { s with authDir := false }

/-- A fire-and-forget `setTimeout(callback, ms)`. -/
def setTimeout (callback : Callback) (ms : ℕ) (s : System W) : System W :=
  { s with scheduled := s.scheduled ++ [(ms, callback)] }

/-- Truthiness of a value that is a string or `null`: `null` and the empty string are
falsy. -/
def truthy : Option String → Bool
  | none => false
  | some v => v != ""

/-- The constant `maxRetries` (line 85). -/
def maxRetries : ℕ := 3

/-- The handler of the driver event `qr` (lines 23-36).  `toDataURL` is
`qrcodeLib.toDataURL`, which may reject. -/
def onQr (toDataURL : String → Except String String) (qr : String) (s : System W) :
    System W :=
  let s1 := { s with qrCode := some qr, clientStatus := "awaiting-authentication" }
  match toDataURL qr with
  | .ok qrDataURL => emit "status" "QR Code Ready" (emit "qr" qrDataURL s1)
  | .error _ => emit "status" "Error" s1

/-- The handler of the driver event `ready` (lines 38-51); a failure of the test
message is caught and only printed. -/
def onReady (s : System W) : System W :=
  let s1 := emit "status" "Connected" { s with clientStatus := "connected", qrCode := none }
  match s1.client with
  | none => s1
  | some client =>
    (call (Event.sendMessage "256769030882@c.us"
        "Hello! This is an automated message sent upon successful connection.")
      (client.sendMessage "256769030882@c.us"
        "Hello! This is an automated message sent upon successful connection.") s1).2

/-- The handler of the driver event `auth_failure` (lines 53-60). -/
def onAuthFailure (_msg : String) (s : System W) : System W :=
  setTimeout Callback.clientInit 10000
    (emit "status" "Authentication Failure" (rmSync { s with clientStatus := "auth-failure" }))

/-- The handler of the driver event `disconnected` (lines 62-72). -/
def onDisconnected (reason : String) (s : System W) : System W :=
  let s1 := { s with clientStatus := "disconnected" }
  let s2 := if reason = "LOGOUT" ∨ reason = "BANNED" then rmSync s1 else s1
  setTimeout Callback.clientInit 10000 (emit "status" "Disconnected" s2)

/-- The handler of the driver event `error` (lines 74-78). -/
def onError (_err : String) (s : System W) : System W :=
  emit "status" "Error" { s with clientStatus := "error" }

/-- The `await` of the driver's `initialize()` through the module variable `client`;
with `client` unset the member access throws. -/
def awaitInit (s : System W) : Except String Unit × System W :=
  match s.client with
  | none => (.error "client is undefined", s)
  | some client => call Event.init client.init s

/-- The function `startWithRetry` (lines 87-107): everything thrown by the `try` block
is caught, so the function itself never raises. -/
def startWithRetry (s : System W) : System W :=
  match awaitInit s with
  | (.ok _, s1) => { s1 with retries := 0 }
  | (.error _, s1) =>
    let s2 := emit "status" "Error" { s1 with clientStatus := "error" }
    if s2.retries < maxRetries then
      let s3 := { s2 with retries := s2.retries + 1 }
      let delay := min 60000 (10000 * 2 ^ s3.retries)
      setTimeout Callback.startWithRetry delay s3
    else
      setTimeout Callback.startWithRetry (30 * 60 * 1000) { rmSync s2 with retries := 0 }

/-- The timer callback `() => client.initialize()` (lines 59 and 71): nothing awaits
or catches the promise, so `.error e` is a rejection that escapes the module. -/
def clientInit (s : System W) : Except String Unit × System W :=
  awaitInit s

/-- The function `getConnectionStatus` (lines 162-170): `status || clientStatus` inside
`try`, `clientStatus` in `catch`.  The outer `.error` would be an exception raised to
the caller. -/
def getConnectionStatus (s : System W) : Except String String × System W :=
  match s.client with
  | none => (.ok s.clientStatus, s)
  | some client =>
    match call Event.getState client.getState s with
    | (.ok status, s1) =>
      (.ok (if truthy status then render status else s1.clientStatus), s1)
    | (.error _, s1) => (.ok s1.clientStatus, s1)

/-- The function `getQRCode` (lines 172-183): `none` is `null`, and a rejection of
`toDataURL` is rethrown. -/
def getQRCode (toDataURL : String → Except String String) (s : System W) :
    Except String (Option String) :=
  if s.clientStatus ≠ "awaiting-authentication" ∨ truthy s.qrCode = false then
    .ok none
  else
    match s.qrCode with
    | none => .ok none
    | some qr =>
      match toDataURL qr with
      | .ok qrDataURL => .ok (some qrDataURL)
      | .error err => .error err

/-- What can happen to the session manager: a driver event, the firing of one of the
two kinds of timer, or a call of `disconnect`. -/
inductive Input where
  | qr (code : String)
  | ready
  | authFailure (msg : String)
  | disconnected (reason : String)
  | error (err : String)
  | retryTimer
  | initTimer
  | disconnect

/-- The effect of one input on the system. -/
def step (toDataURL : String → Except String String) : Input → System W → System W
  | Input.qr code, s => onQr toDataURL code s
  | Input.ready, s => onReady s
  | Input.authFailure msg, s => onAuthFailure msg s
  | Input.disconnected reason, s => onDisconnected reason s
  | Input.error err, s => onError err s
  | Input.retryTimer, s => startWithRetry s
  | Input.initTimer, s => (clientInit s).2
  | Input.disconnect, s => (disconnect s).2

/-- The system after a sequence of inputs. -/
def run (toDataURL : String → Except String String) (inputs : List Input) (s : System W) :
    System W :=
  inputs.foldl (fun acc i => step toDataURL i acc) s

/-- The delays of the retries scheduled by `startWithRetry`, in order. -/
def retryDelays (s : System W) : List ℕ :=
  (s.scheduled.filter (fun p => p.2 = Callback.startWithRetry)).map Prod.fst

/-- The delay of the retry scheduled by the `k`-th consecutive failure of
`startWithRetry`, counting from `k = 0`: 20 s, 40 s, 60 s, then the 30-minute
cooldown, and so on in cycles of four. -/
def cycleDelay (k : ℕ) : ℕ :=
  match k % 4 with
  | 0 => 20000
  | 1 => 40000
  | 2 => 60000
  | _ => 1800000

/-- The bound on the retry counter and on the delays of the retries scheduled by
`startWithRetry`. -/
def RetryBounded (s : System W) : Prop :=
  s.retries ≤ 3 ∧
  ∀ p ∈ s.scheduled, p.2 = Callback.startWithRetry →
    p.1 = 20000 ∨ p.1 = 40000 ∨ p.1 = 60000 ∨ p.1 = 1800000

/-- A stored challenge whenever the tracked state is `awaiting-authentication`. -/
def ChallengeStored (s : System W) : Prop :=
  s.clientStatus = "awaiting-authentication" → s.qrCode ≠ none

/-! ## A concrete driver used to evaluate the definitions -/

/-- A driver whose world counts the calls made so far.  It reports `CONNECTED`
(taking 5 ms), knows every address except `0000000000@c.us` (20 ms), delivers every
message except the text `boom` (100 ms), refuses to log out while no call has been
made, and fails to start until two calls have been made. -/
def demoClient : Client ℕ where
  getState := fun w => { outcome := .ok (some "CONNECTED"), world := w + 1, elapsed := 5 }
  isRegisteredUser := fun chatId w =>
    { outcome := .ok (chatId != "0000000000@c.us"), world := w + 1, elapsed := 20 }
  sendMessage := fun _ message w =>
    { outcome := if message = "boom" then .error "Evaluation failed" else .ok "3EB0A1",
      world := w + 1, elapsed := 100 }
  logout := fun w =>
    { outcome := if w = 0 then .error "Protocol error" else .ok (),
      world := w + 1, elapsed := 50 }
  init := fun w =>
    { outcome := if w < 2 then .error "Failed to launch the browser process" else .ok (),
      world := w + 1, elapsed := 900 }

/-- A driver that is not connected: `getState` answers `null`. -/
def idleClient : Client ℕ :=
  { demoClient with
    getState := fun w => { outcome := .ok none, world := w + 1, elapsed := 5 } }

/-- A driver that never starts: `initialize()` always rejects. -/
def brokenClient : Client ℕ :=
  { demoClient with
    init := fun w =>
      { outcome := .error "Failed to launch the browser process", world := w + 1,
        elapsed := 900 } }

/-- An encoder of challenges into data URLs that always succeeds. -/
def demoDataURL : String → Except String String :=
  fun qr => .ok ("data:image/png;base64," ++ qr)

/-- The value one half as a `Math.random()` result. -/
def half : Draw := { val := 1 / 2, nonneg := by norm_num, lt_one := by norm_num }

/-- The largest double below 1, `1 - 2 ^ (-53)`, as a `Math.random()` result. -/
def topDraw : Draw :=
  { val := 1 - 1 / 2 ^ 53, nonneg := by norm_num, lt_one := by norm_num }

/-- A system right after `initWhatsApp`, with `demoClient` as its driver. -/
def demoSystem : System ℕ where
  client := some demoClient
  qrCode := none
  clientStatus := "disconnected"
  emitted := []
  authDir := false
  random := fun _ => half
  world := 0
  clock := 0
  log := []
  retries := 0
  scheduled := []

/-! ## Auxiliary facts -/

theorem replaceNonDigits_data (x : String) :
    (replaceNonDigits x).data = x.data.filter Char.isDigit := rfl

/-- A string of digits never contains the suffix `@c.us`. -/
theorem includes_digits (x : String) : includes (replaceNonDigits x) "@c.us" = false := by
  unfold includes
  rw [decide_eq_false_iff_not]
  intro h
  have hmem : '@' ∈ (replaceNonDigits x).data := h.subset (by simp)
  rw [replaceNonDigits_data, List.mem_filter] at hmem
  exact absurd hmem.2 (by decide)

theorem chatIdOf_digits (x : String) :
    chatIdOf (replaceNonDigits x) = replaceNonDigits x ++ "@c.us" := by
  simp [chatIdOf, includes_digits]

theorem normalizeRecipient_short (x : String) (h : (replaceNonDigits x).length < 10) :
    normalizeRecipient x = .error ("Invalid phone number: " ++ x) := by
  simp [normalizeRecipient, h]

theorem normalizeRecipient_long (x : String) (h : 10 ≤ (replaceNonDigits x).length) :
    normalizeRecipient x = .ok (replaceNonDigits x ++ "@c.us") := by
  have h1 : ¬ (replaceNonDigits x).length < 10 := by omega
  have h2 : replaceNonDigits x ≠ "" := by
    intro h0
    rw [h0] at h
    simp at h
  simp [normalizeRecipient, h1, h2, chatIdOf_digits]

/-! ## Single sends -/

/-- C1: with the client initialised, a recipient with fewer than 10 digits makes
`sendMessage` return `{success:false, to, error:'Invalid phone number: <to>'}` and
leaves the whole system untouched: no driver method is called, so the log, the driver
world and the clock are those of the start. -/
theorem sendMessage_invalid_recipient (c : Client W) (to_ message : String) (s : System W)
    (hc : s.client = some c) (hd : (replaceNonDigits to_).length < 10) :
    sendMessage to_ message s =
      (.ok { success := false, messageId := none, to_ := to_,
             error := some ("Invalid phone number: " ++ to_) }, s) := by
  simp [sendMessage, getWhatsAppClient, hc, sendMessageTry, normalizeRecipient_short to_ hd]

theorem sendMessage_invalid_recipient_witness :
    (replaceNonDigits "555-0101").length < 10 ∧
    sendMessage "555-0101" "hi" demoSystem =
      (.ok { success := false, messageId := none, to_ := "555-0101",
             error := some ("Invalid phone number: " ++ "555-0101") }, demoSystem) :=
  ⟨by decide, sendMessage_invalid_recipient demoClient "555-0101" "hi" demoSystem rfl
    (by decide)⟩

/-- C2: when the recipient keeps at least 10 digits and the driver's `getState`
answers a state other than `CONNECTED` (`null` included), `sendMessage` returns
`{success:false, to, error:'Client not ready, current state: <state>'}`, and the only
driver call it makes is that `getState`: neither `isRegisteredUser` nor the driver's
`sendMessage` is called. -/
theorem sendMessage_not_ready (c : Client W) (to_ message : String) (s : System W)
    (state : Option String) (hc : s.client = some c)
    (hd : 10 ≤ (replaceNonDigits to_).length)
    (hs : (c.getState s.world).outcome = .ok state) (hn : state ≠ some "CONNECTED") :
    (sendMessage to_ message s).1 =
        .ok { success := false, messageId := none, to_ := to_,
              error := some ("Client not ready, current state: " ++ render state) } ∧
      (sendMessage to_ message s).2.log = s.log ++ [(s.clock, Event.getState)] := by
  simp [sendMessage, getWhatsAppClient, hc, sendMessageTry, normalizeRecipient_long to_ hd,
    call, hs, hn]

theorem sendMessage_not_ready_witness :
    (sendMessage "+1 (555) 000-1111" "hi" { demoSystem with client := some idleClient }).1 =
        .ok { success := false, messageId := none, to_ := "+1 (555) 000-1111",
              error := some ("Client not ready, current state: " ++ render none) } ∧
      (sendMessage "+1 (555) 000-1111" "hi"
          { demoSystem with client := some idleClient }).2.log =
        [] ++ [(0, Event.getState)] :=
  sendMessage_not_ready idleClient "+1 (555) 000-1111" "hi"
    { demoSystem with client := some idleClient } none rfl (by decide) rfl (by decide)

/-- C3: one call of `sendMessage` appends to the log a list `calls` of driver calls
that contains the driver's `sendMessage` at most once, and exactly once if and only
if the three checks pass (at least 10 digits, live state `CONNECTED`,
`isRegisteredUser(chatId)` true).  When the first two checks pass and the recipient is
not registered, the result is `{success:false, to, error:'Number <to> is not
registered on WhatsApp'}` and the driver's send does not occur. -/
theorem sendMessage_send_iff_checks (c : Client W) (to_ message : String) (s : System W)
    (hc : s.client = some c) :
    ∃ calls, (sendMessage to_ message s).2.log = s.log ++ calls ∧
      sendCount calls ≤ 1 ∧
      (sendCount calls = 1 ↔ checksPass c to_ s) ∧
      (10 ≤ (replaceNonDigits to_).length →
        (c.getState s.world).outcome = .ok (some "CONNECTED") →
        (c.isRegisteredUser (replaceNonDigits to_ ++ "@c.us")
            (c.getState s.world).world).outcome = .ok false →
        (sendMessage to_ message s).1 =
            .ok { success := false, messageId := none, to_ := to_,
                  error := some ("Number " ++ to_ ++ " is not registered on WhatsApp") } ∧
          sendCount calls = 0) := by
  by_cases hd : 10 ≤ (replaceNonDigits to_).length
  · rcases hg : (c.getState s.world).outcome with e | state
    · refine ⟨[(s.clock, Event.getState)], ?_, ?_, ?_, ?_⟩ <;>
        simp [sendMessage, getWhatsAppClient, hc, sendMessageTry,
          normalizeRecipient_long to_ hd, call, hg, checksPass, sendCount, isSend]
    · by_cases hn : state = some "CONNECTED"
      · subst hn
        rcases hr : (c.isRegisteredUser (replaceNonDigits to_ ++ "@c.us")
            (c.getState s.world).world).outcome with e | reg
        · refine ⟨[(s.clock, Event.getState),
              (s.clock + ((c.getState s.world).elapsed : ℚ),
                Event.isRegisteredUser (replaceNonDigits to_ ++ "@c.us"))], ?_, ?_, ?_, ?_⟩ <;>
            simp [sendMessage, getWhatsAppClient, hc, sendMessageTry,
              normalizeRecipient_long to_ hd, call, hg, hr, checksPass, sendCount, isSend]
        · cases reg
          · refine ⟨[(s.clock, Event.getState),
                (s.clock + ((c.getState s.world).elapsed : ℚ),
                  Event.isRegisteredUser (replaceNonDigits to_ ++ "@c.us"))], ?_, ?_, ?_, ?_⟩ <;>
              simp [sendMessage, getWhatsAppClient, hc, sendMessageTry,
                normalizeRecipient_long to_ hd, call, hg, hr, checksPass, sendCount, isSend]
          · rcases hm : (c.sendMessage (replaceNonDigits to_ ++ "@c.us") message
                (c.isRegisteredUser (replaceNonDigits to_ ++ "@c.us")
                  (c.getState s.world).world).world).outcome with e | id <;>
            · refine ⟨[(s.clock, Event.getState),
                  (s.clock + ((c.getState s.world).elapsed : ℚ),
                    Event.isRegisteredUser (replaceNonDigits to_ ++ "@c.us")),
                  (s.clock + ((c.getState s.world).elapsed : ℚ) +
                      ((c.isRegisteredUser (replaceNonDigits to_ ++ "@c.us")
                        (c.getState s.world).world).elapsed : ℚ),
                    Event.sendMessage (replaceNonDigits to_ ++ "@c.us") message)],
                  ?_, ?_, ?_, ?_⟩ <;>
                simp [sendMessage, getWhatsAppClient, hc, sendMessageTry,
                  normalizeRecipient_long to_ hd, call, hg, hr, hm, checksPass, sendCount,
                  isSend, hd]
      · refine ⟨[(s.clock, Event.getState)], ?_, ?_, ?_, ?_⟩ <;>
          simp [sendMessage, getWhatsAppClient, hc, sendMessageTry,
            normalizeRecipient_long to_ hd, call, hg, hn, checksPass, sendCount, isSend]
  · have hlt : (replaceNonDigits to_).length < 10 := by omega
    refine ⟨[], ?_, ?_, ?_, ?_⟩ <;>
      simp [sendMessage, getWhatsAppClient, hc, sendMessageTry,
        normalizeRecipient_short to_ hlt, checksPass, sendCount, hd]

theorem sendMessage_send_iff_checks_witness :
    ∃ calls, (sendMessage "0000000000" "hi" demoSystem).2.log = demoSystem.log ++ calls ∧
      sendCount calls ≤ 1 ∧
      (sendCount calls = 1 ↔ checksPass demoClient "0000000000" demoSystem) ∧
      (10 ≤ (replaceNonDigits "0000000000").length →
        (demoClient.getState demoSystem.world).outcome = .ok (some "CONNECTED") →
        (demoClient.isRegisteredUser (replaceNonDigits "0000000000" ++ "@c.us")
            (demoClient.getState demoSystem.world).world).outcome = .ok false →
        (sendMessage "0000000000" "hi" demoSystem).1 =
            .ok { success := false, messageId := none, to_ := "0000000000",
                  error := some ("Number " ++ "0000000000" ++
                    " is not registered on WhatsApp") } ∧
          sendCount calls = 0) :=
  sendMessage_send_iff_checks demoClient "0000000000" "hi" demoSystem rfl

/-- C4: when the recipient keeps at least 10 digits, the driver state is `CONNECTED`,
the address is registered and the driver send resolves with message id `m`,
`sendMessage` returns `{success:true, messageId:m, to}` and its driver calls are, in
this order, `getState`, `isRegisteredUser(addr)` and one `sendMessage(addr, message)`,
where `addr` is the digit characters of the input, in their order, followed by
`@c.us`. -/
theorem sendMessage_success (c : Client W) (to_ message m : String) (s : System W)
    (hc : s.client = some c) (hd : 10 ≤ (to_.data.filter Char.isDigit).length)
    (hg : (c.getState s.world).outcome = .ok (some "CONNECTED"))
    (hr : (c.isRegisteredUser (String.mk (to_.data.filter Char.isDigit) ++ "@c.us")
        (c.getState s.world).world).outcome = .ok true)
    (hm : (c.sendMessage (String.mk (to_.data.filter Char.isDigit) ++ "@c.us") message
        (c.isRegisteredUser (String.mk (to_.data.filter Char.isDigit) ++ "@c.us")
          (c.getState s.world).world).world).outcome = .ok m) :
    (sendMessage to_ message s).1 =
        .ok { success := true, messageId := some m, to_ := to_, error := none } ∧
      (sendMessage to_ message s).2.log.map Prod.snd =
        s.log.map Prod.snd ++
          [Event.getState,
           Event.isRegisteredUser (String.mk (to_.data.filter Char.isDigit) ++ "@c.us"),
           Event.sendMessage (String.mk (to_.data.filter Char.isDigit) ++ "@c.us")
             message] := by
  change 10 ≤ (replaceNonDigits to_).length at hd
  change (c.isRegisteredUser (replaceNonDigits to_ ++ "@c.us")
    (c.getState s.world).world).outcome = .ok true at hr
  change (c.sendMessage (replaceNonDigits to_ ++ "@c.us") message
    (c.isRegisteredUser (replaceNonDigits to_ ++ "@c.us")
      (c.getState s.world).world).world).outcome = .ok m at hm
  change _ ∧ _ = s.log.map Prod.snd ++
    [Event.getState, Event.isRegisteredUser (replaceNonDigits to_ ++ "@c.us"),
      Event.sendMessage (replaceNonDigits to_ ++ "@c.us") message]
  simp [sendMessage, getWhatsAppClient, hc, sendMessageTry, normalizeRecipient_long to_ hd,
    call, hg, hr, hm]

theorem sendMessage_success_witness :
    (sendMessage "+1 (555) 000-1111" "hi" demoSystem).1 =
        .ok { success := true, messageId := some "3EB0A1", to_ := "+1 (555) 000-1111",
              error := none } ∧
      (sendMessage "+1 (555) 000-1111" "hi" demoSystem).2.log.map Prod.snd =
        demoSystem.log.map Prod.snd ++
          [Event.getState, Event.isRegisteredUser "15550001111@c.us",
           Event.sendMessage "15550001111@c.us" "hi"] :=
  sendMessage_success demoClient "+1 (555) 000-1111" "hi" "3EB0A1" demoSystem rfl
    (by decide) rfl (by simp [demoClient]) (by simp [demoClient])

/-- C8: `sendMessage` raises exactly when the client was never initialised.  With the
client initialised, a failure `e` of any of its driver calls (`getState`,
`isRegisteredUser`, the driver's `sendMessage`) is returned as
`{success:false, to, error:e}`, and the failed call is the last driver call made: in
particular a failed send occurs once and is not retried. -/
theorem sendMessage_recovers (to_ message : String) (s : System W) :
    ((∃ e, (sendMessage to_ message s).1 = .error e) ↔ s.client = none) ∧
    ∀ c, s.client = some c → ∀ e, 10 ≤ (replaceNonDigits to_).length →
      ((c.getState s.world).outcome = .error e →
        (sendMessage to_ message s).1 =
            .ok { success := false, messageId := none, to_ := to_, error := some e } ∧
          (sendMessage to_ message s).2.log.map Prod.snd =
            s.log.map Prod.snd ++ [Event.getState]) ∧
      ((c.getState s.world).outcome = .ok (some "CONNECTED") →
        (c.isRegisteredUser (replaceNonDigits to_ ++ "@c.us")
          (c.getState s.world).world).outcome = .error e →
        (sendMessage to_ message s).1 =
            .ok { success := false, messageId := none, to_ := to_, error := some e } ∧
          (sendMessage to_ message s).2.log.map Prod.snd =
            s.log.map Prod.snd ++
              [Event.getState, Event.isRegisteredUser (replaceNonDigits to_ ++ "@c.us")]) ∧
      ((c.getState s.world).outcome = .ok (some "CONNECTED") →
        (c.isRegisteredUser (replaceNonDigits to_ ++ "@c.us")
          (c.getState s.world).world).outcome = .ok true →
        (c.sendMessage (replaceNonDigits to_ ++ "@c.us") message
          (c.isRegisteredUser (replaceNonDigits to_ ++ "@c.us")
            (c.getState s.world).world).world).outcome = .error e →
        (sendMessage to_ message s).1 =
            .ok { success := false, messageId := none, to_ := to_, error := some e } ∧
          (sendMessage to_ message s).2.log.map Prod.snd =
            s.log.map Prod.snd ++
              [Event.getState, Event.isRegisteredUser (replaceNonDigits to_ ++ "@c.us"),
               Event.sendMessage (replaceNonDigits to_ ++ "@c.us") message]) := by
  refine ⟨?_, ?_⟩
  · rcases hc : s.client with _ | c
    · simp [sendMessage, getWhatsAppClient, hc]
    · simp only [sendMessage, getWhatsAppClient, hc]
      rcases sendMessageTry c to_ message s with ⟨r | r, s1⟩ <;> simp
  · intro c hc e hd
    refine ⟨?_, ?_, ?_⟩
    · intro hg
      simp [sendMessage, getWhatsAppClient, hc, sendMessageTry,
        normalizeRecipient_long to_ hd, call, hg]
    · intro hg hr
      simp [sendMessage, getWhatsAppClient, hc, sendMessageTry,
        normalizeRecipient_long to_ hd, call, hg, hr]
    · intro hg hr hm
      simp [sendMessage, getWhatsAppClient, hc, sendMessageTry,
        normalizeRecipient_long to_ hd, call, hg, hr, hm]

theorem sendMessage_recovers_witness :
    (sendMessage "+1 (555) 000-1111" "boom" demoSystem).1 =
        .ok { success := false, messageId := none, to_ := "+1 (555) 000-1111",
              error := some "Evaluation failed" } ∧
      (sendMessage "+1 (555) 000-1111" "boom" demoSystem).2.log.map Prod.snd =
        demoSystem.log.map Prod.snd ++
          [Event.getState,
           Event.isRegisteredUser (replaceNonDigits "+1 (555) 000-1111" ++ "@c.us"),
           Event.sendMessage (replaceNonDigits "+1 (555) 000-1111" ++ "@c.us") "boom"] :=
  ((sendMessage_recovers "+1 (555) 000-1111" "boom" demoSystem).2 demoClient rfl
    "Evaluation failed" (by decide)).2.2 rfl (by simp [demoClient]; decide)
    (by simp [demoClient])

/-! ## Normalisation -/

theorem replaceNonDigits_append_suffix (x : String) :
    replaceNonDigits (replaceNonDigits x ++ "@c.us") = replaceNonDigits x := by
  apply String.ext
  simp only [replaceNonDigits_data, String.data_append, List.filter_append,
    List.filter_filter, Bool.and_self]
  have h : List.filter Char.isDigit "@c.us".data = [] := by decide
  rw [h, List.append_nil]

/-- C9: recipient normalisation (lines 126-130: drop every non-digit character, demand
at least 10 digits, append `@c.us`) is idempotent: when it succeeds on a raw recipient
with address `c`, it succeeds on `c` and returns `c` unchanged. -/
theorem normalizeRecipient_idempotent (to_ c : String)
    (h : normalizeRecipient to_ = .ok c) : normalizeRecipient c = .ok c := by
  by_cases hd : 10 ≤ (replaceNonDigits to_).length
  · rw [normalizeRecipient_long to_ hd] at h
    injection h with h
    subst h
    have hd2 : 10 ≤ (replaceNonDigits (replaceNonDigits to_ ++ "@c.us")).length := by
      rw [replaceNonDigits_append_suffix]
      exact hd
    rw [normalizeRecipient_long _ hd2, replaceNonDigits_append_suffix]
  · rw [normalizeRecipient_short to_ (by omega)] at h
    cases h

theorem normalizeRecipient_idempotent_witness :
    normalizeRecipient "+1 (555) 000-1111" = .ok "15550001111@c.us" ∧
      normalizeRecipient "15550001111@c.us" = .ok "15550001111@c.us" :=
  ⟨by rfl, normalizeRecipient_idempotent "+1 (555) 000-1111" "15550001111@c.us"
    (by rfl)⟩

/-! ## Disconnect -/

/-- C10: with the client initialised, `disconnect` calls the driver's `logout` (its one
driver call).  If `logout` succeeds, `disconnect` returns normally, the tracked state
is `disconnected`, the sink has received `status`/`Disconnected` and the credential
directory is gone.  If `logout` fails with `e`, `disconnect` raises `e` and the
tracked state, the pending challenge, the sink and the credential directory are those
of the start. -/
theorem disconnect_logout (c : Client W) (s : System W) (hc : s.client = some c) :
    (disconnect s).2.log = s.log ++ [(s.clock, Event.logout)] ∧
    ((c.logout s.world).outcome = .ok () →
      (disconnect s).1 = .ok () ∧
      (disconnect s).2.clientStatus = "disconnected" ∧
      (disconnect s).2.emitted = s.emitted ++ [("status", "Disconnected")] ∧
      (disconnect s).2.authDir = false) ∧
    (∀ e, (c.logout s.world).outcome = .error e →
      (disconnect s).1 = .error e ∧
      (disconnect s).2.clientStatus = s.clientStatus ∧
      (disconnect s).2.qrCode = s.qrCode ∧
      (disconnect s).2.emitted = s.emitted ∧
      (disconnect s).2.authDir = s.authDir) := by
  rcases hl : (c.logout s.world).outcome with e | u
  · simp [disconnect, getWhatsAppClient, hc, call, hl]
  · simp [disconnect, getWhatsAppClient, hc, call, hl]

theorem disconnect_logout_witness :
    ((disconnect demoSystem).1 = .error "Protocol error" ∧
      (disconnect demoSystem).2.clientStatus = demoSystem.clientStatus ∧
      (disconnect demoSystem).2.qrCode = demoSystem.qrCode ∧
      (disconnect demoSystem).2.emitted = demoSystem.emitted ∧
      (disconnect demoSystem).2.authDir = demoSystem.authDir) ∧
    ((disconnect { demoSystem with world := 1, authDir := true }).1 = .ok () ∧
      (disconnect { demoSystem with world := 1, authDir := true }).2.clientStatus =
        "disconnected" ∧
      (disconnect { demoSystem with world := 1, authDir := true }).2.emitted =
        [] ++ [("status", "Disconnected")] ∧
      (disconnect { demoSystem with world := 1, authDir := true }).2.authDir = false) :=
  ⟨(disconnect_logout demoClient demoSystem rfl).2.2 "Protocol error" rfl,
   (disconnect_logout demoClient { demoSystem with world := 1, authDir := true } rfl).2.1
     rfl⟩

/-! ## Bulk sends -/

/-- Every call of `sendMessage` acts on the system through driver calls alone. -/
theorem sendMessage_callsOnly (to_ message : String) (s : System W) :
    ∃ calls, CallsOnly s (sendMessage to_ message s).2 calls := by
  rcases hc : s.client with _ | c
  · exact ⟨[], by constructor <;> simp [sendMessage, getWhatsAppClient, hc, sendCount]⟩
  by_cases hd : 10 ≤ (replaceNonDigits to_).length
  · rcases hg : (c.getState s.world).outcome with e | state
    · refine ⟨[(s.clock, Event.getState)], ?_⟩
      constructor <;>
        simp [sendMessage, getWhatsAppClient, hc, sendMessageTry,
          normalizeRecipient_long to_ hd, call, hg, sendCount, isSend, isTimer, isPush]
    · by_cases hn : state = some "CONNECTED"
      · subst hn
        rcases hr : (c.isRegisteredUser (replaceNonDigits to_ ++ "@c.us")
            (c.getState s.world).world).outcome with e | reg
        · refine ⟨[(s.clock, Event.getState),
              (s.clock + ((c.getState s.world).elapsed : ℚ),
                Event.isRegisteredUser (replaceNonDigits to_ ++ "@c.us"))], ?_⟩
          constructor <;>
            simp [sendMessage, getWhatsAppClient, hc, sendMessageTry,
              normalizeRecipient_long to_ hd, call, hg, hr, sendCount, isSend, isTimer,
              isPush, add_assoc] <;> positivity
        · cases reg
          · refine ⟨[(s.clock, Event.getState),
                (s.clock + ((c.getState s.world).elapsed : ℚ),
                  Event.isRegisteredUser (replaceNonDigits to_ ++ "@c.us"))], ?_⟩
            constructor <;>
              simp [sendMessage, getWhatsAppClient, hc, sendMessageTry,
                normalizeRecipient_long to_ hd, call, hg, hr, sendCount, isSend, isTimer,
                isPush, add_assoc] <;> positivity
          · rcases hm : (c.sendMessage (replaceNonDigits to_ ++ "@c.us") message
                (c.isRegisteredUser (replaceNonDigits to_ ++ "@c.us")
                  (c.getState s.world).world).world).outcome with e | id <;>
            · refine ⟨[(s.clock, Event.getState),
                  (s.clock + ((c.getState s.world).elapsed : ℚ),
                    Event.isRegisteredUser (replaceNonDigits to_ ++ "@c.us")),
                  (s.clock + ((c.getState s.world).elapsed : ℚ) +
                      ((c.isRegisteredUser (replaceNonDigits to_ ++ "@c.us")
                        (c.getState s.world).world).elapsed : ℚ),
                    Event.sendMessage (replaceNonDigits to_ ++ "@c.us") message)], ?_⟩
              constructor <;>
                simp [sendMessage, getWhatsAppClient, hc, sendMessageTry,
                  normalizeRecipient_long to_ hd, call, hg, hr, hm, sendCount, isSend,
                  isTimer, isPush, add_assoc] <;>
                first | positivity | (refine ⟨?_, ?_, ?_⟩ <;> positivity)
      · refine ⟨[(s.clock, Event.getState)], ?_⟩
        constructor <;>
          simp [sendMessage, getWhatsAppClient, hc, sendMessageTry,
            normalizeRecipient_long to_ hd, call, hg, hn, sendCount, isSend, isTimer, isPush]
  · have hlt : (replaceNonDigits to_).length < 10 := by omega
    exact ⟨[], by
      constructor <;>
        simp [sendMessage, getWhatsAppClient, hc, sendMessageTry,
          normalizeRecipient_short to_ hlt, sendCount]⟩

theorem sendMessageTry_ok_to (c : Client W) (to_ message : String) (s s1 : System W)
    (r : SendResult) (h : sendMessageTry c to_ message s = (.ok r, s1)) : r.to_ = to_ := by
  unfold sendMessageTry at h
  split at h
  · cases h
  · split at h
    · cases h
    · split at h
      · cases h
      · split at h
        · cases h
        · split at h
          · cases h
          · split at h
            · cases h
            · cases h
              rfl

/-- With the client initialised `sendMessage` always returns a result, whose `to` is
the raw recipient. -/
theorem sendMessage_ok (c : Client W) (to_ message : String) (s : System W)
    (hc : s.client = some c) :
    ∃ r, (sendMessage to_ message s).1 = .ok r ∧ r.to_ = to_ := by
  simp only [sendMessage, getWhatsAppClient, hc]
  rcases ht : sendMessageTry c to_ message s with ⟨e | r, s1⟩
  · exact ⟨_, rfl, rfl⟩
  · exact ⟨r, rfl, sendMessageTry_ok_to c to_ message s s1 r ht⟩

/-- One pass of the loop body of `sendBulkMessage` once `sendMessage` has answered
`result` in system `s1`. -/
theorem sendBulkLoop_cons (message x : String) (rest : List String)
    (acc : List SendResult) (s s1 : System W) (result : SendResult)
    (h : sendMessage x message s = (.ok result, s1)) :
    sendBulkLoop message (x :: rest) acc s =
      sendBulkLoop message rest (acc ++ [result])
        (sleep (jsAdd 3000 (jsMul (mathRandom (push result s1)).1 2000))
          (mathRandom (push result s1)).2) := by
  simp [sendBulkLoop, h]

/-- Running the loop over `xs ++ ys` is running it over `xs` and then, unless that
raised, over `ys` from the results and the system reached. -/
theorem sendBulkLoop_append (message : String) (xs ys : List String) :
    ∀ (acc : List SendResult) (s : System W),
      sendBulkLoop message (xs ++ ys) acc s =
        match sendBulkLoop message xs acc s with
        | (.ok acc1, s1) => sendBulkLoop message ys acc1 s1
        | (.error e, s1) => (.error e, s1) := by
  induction xs with
  | nil =>
    intro acc s
    simp [sendBulkLoop]
  | cons x xs ih =>
    intro acc s
    simp only [List.cons_append, sendBulkLoop]
    rcases sendMessage x message s with ⟨e | r, s1⟩
    · simp
    · simp [ih]

/-- With the client initialised the loop never raises: it extends the accumulator by
one result per recipient, in order, keeps the client and only appends to the log. -/
theorem sendBulkLoop_ok (c : Client W) (message : String) (ns : List String) :
    ∀ (acc : List SendResult) (s : System W), s.client = some c →
      ∃ rs s1, sendBulkLoop message ns acc s = (.ok (acc ++ rs), s1) ∧
        rs.length = ns.length ∧ rs.map SendResult.to_ = ns ∧
        s1.client = some c ∧ s.log <+: s1.log := by
  induction ns with
  | nil =>
    intro acc s _
    exact ⟨[], s, by simp [sendBulkLoop], rfl, rfl, by assumption, List.prefix_refl _⟩
  | cons x rest ih =>
    intro acc s hc
    obtain ⟨r, hr, hto⟩ := sendMessage_ok c x message s hc
    obtain ⟨calls, hcalls⟩ := sendMessage_callsOnly x message s
    have hsend : sendMessage x message s = (.ok r, (sendMessage x message s).2) :=
      Prod.ext hr rfl
    have hc4 : (sleep (jsAdd 3000 (jsMul (mathRandom (push r (sendMessage x message s).2)).1 2000))
        (mathRandom (push r (sendMessage x message s).2)).2).client = some c := by
      simp [sleep, mathRandom, push, hcalls.client, hc]
    obtain ⟨rs, s5, hloop, hlen, hmap, hc5, hpre⟩ := ih (acc ++ [r]) _ hc4
    refine ⟨r :: rs, s5, ?_, by simp [hlen], by simp [hmap, hto], hc5, ?_⟩
    · rw [sendBulkLoop_cons message x rest acc s _ r hsend, hloop]
      simp
    · refine List.IsPrefix.trans ?_ hpre
      simp only [sleep, mathRandom, push, hcalls.log, List.append_assoc]
      exact List.prefix_append _ _

/-- The loop around one recipient `x` in the middle of the input `xs ++ x :: ys`: the
results for `xs` are computed first, `x` is sent from the system they leave, its result
is pushed and the timer set, and only then does the loop go on with `ys`. -/
theorem sendBulkLoop_split (c : Client W) (message : String) (xs : List String)
    (x : String) (ys : List String) (s : System W) (hc : s.client = some c) :
    ∃ rs r s3 rs2 s2,
      rs.length = xs.length ∧
      (sendBulkLoop message xs [] s).1 = .ok rs ∧
      (sendMessage x message (sendBulkLoop message xs [] s).2).1 = .ok r ∧
      (sendBulkLoop message xs [] s).2.log <+:
        (sendMessage x message (sendBulkLoop message xs [] s).2).2.log ∧
      sendBulkLoop message (xs ++ [x]) [] s = (.ok (rs ++ [r]), s3) ∧
      s3.log = (sendMessage x message (sendBulkLoop message xs [] s).2).2.log ++
        [((sendMessage x message (sendBulkLoop message xs [] s).2).2.clock, Event.push r),
         ((sendMessage x message (sendBulkLoop message xs [] s).2).2.clock,
           Event.setTimeout
             (jsAdd 3000 (jsMul ((sendMessage x message
               (sendBulkLoop message xs [] s).2).2.random 0).val 2000)))] ∧
      sendBulkLoop message (xs ++ x :: ys) [] s = (.ok (rs ++ [r] ++ rs2), s2) ∧
      s3.log <+: s2.log := by
  obtain ⟨rs, s1, h1, hlen1, -, hc1, -⟩ := sendBulkLoop_ok c message xs [] s hc
  simp only [List.nil_append] at h1
  obtain ⟨r, hr, -⟩ := sendMessage_ok c x message s1 hc1
  obtain ⟨calls, hcalls⟩ := sendMessage_callsOnly x message s1
  have hsend : sendMessage x message s1 = (.ok r, (sendMessage x message s1).2) :=
    Prod.ext hr rfl
  have h3 : sendBulkLoop message (xs ++ [x]) [] s =
      (.ok (rs ++ [r]), sleep (jsAdd 3000 (jsMul (mathRandom (push r (sendMessage x message s1).2)).1 2000))
        (mathRandom (push r (sendMessage x message s1).2)).2) := by
    rw [sendBulkLoop_append, h1]
    simp only
    rw [sendBulkLoop_cons message x [] rs s1 _ r hsend]
    simp [sendBulkLoop]
  have hc3 : (sleep (jsAdd 3000 (jsMul (mathRandom (push r (sendMessage x message s1).2)).1 2000))
      (mathRandom (push r (sendMessage x message s1).2)).2).client = some c := by
    simp [sleep, mathRandom, push, hcalls.client, hc1]
  obtain ⟨rs2, s2, h2, -, -, -, hpre⟩ := sendBulkLoop_ok c message ys (rs ++ [r]) _ hc3
  refine ⟨rs, r, _, rs2, s2, hlen1, ?_, ?_, ?_, h3, ?_, ?_, hpre⟩
  · rw [h1]
  · rw [h1]
    exact hr
  · rw [h1, hcalls.log]
    exact List.prefix_append _ _
  · rw [h1]
    simp [sleep, mathRandom, push]
  · have hsplit : xs ++ x :: ys = (xs ++ [x]) ++ ys := by simp
    rw [hsplit, sendBulkLoop_append, h3]
    exact h2

/-- C5: with the client initialised, `sendBulkMessage` on `n` recipients returns `n`
results whose `to` fields are the recipients in input order, whatever the individual
outcomes.  The `i`-th result is what `sendMessage` returns (`ti`) for the `i`-th
recipient in the system `si` left by the bulk send of the first `i` recipients; the
driver calls for that recipient are appended to the log as it stood after those `i`
recipients, the push of its result and the timer follow them, and whatever is done for
later recipients is appended after that push. -/
theorem sendBulkMessage_results (c : Client W) (numbers : List String) (message : String)
    (s : System W) (hc : s.client = some c) :
    ∃ results s1, sendBulkMessage numbers message s = (.ok results, s1) ∧
      results.length = numbers.length ∧
      results.map SendResult.to_ = numbers ∧
      ∀ (i : ℕ) (hi : i < numbers.length), ∃ r si ti,
        si = (sendBulkMessage (numbers.take i) message s).2 ∧
        ti = sendMessage numbers[i] message si ∧
        results[i]? = some r ∧
        ti.1 = .ok r ∧
        si.log <+: ti.2.log ∧
        (sendBulkMessage (numbers.take (i + 1)) message s).2.log =
          ti.2.log ++
            [(ti.2.clock, Event.push r),
             (ti.2.clock, Event.setTimeout (jsAdd 3000 (jsMul (ti.2.random 0).val 2000)))] ∧
        (sendBulkMessage (numbers.take (i + 1)) message s).2.log <+: s1.log := by
  obtain ⟨results, s1, hfull, hlen, hmap, -, -⟩ := sendBulkLoop_ok c message numbers [] s hc
  simp only [List.nil_append] at hfull
  refine ⟨results, s1, hfull, hlen, hmap, ?_⟩
  intro i hi
  obtain ⟨rs, r, s3, rs2, s2, hlen1, -, hr, hpre, h3, hlog3, h2, hpre2⟩ :=
    sendBulkLoop_split c message (numbers.take i) numbers[i] (numbers.drop (i + 1)) s hc
  have htake : numbers.take (i + 1) = numbers.take i ++ [numbers[i]] := by simp
  have hall : numbers.take i ++ numbers[i] :: numbers.drop (i + 1) = numbers := by
    rw [List.getElem_cons_drop, List.take_append_drop]
  rw [hall] at h2
  have heq : (Except.ok results, s1) = (Except.ok (rs ++ [r] ++ rs2), s2) :=
    hfull.symm.trans h2
  injection heq with hres hs
  injection hres with hres
  have hleni : rs.length = i := by
    rw [hlen1, List.length_take]
    omega
  have hget : results[i]? = some r := by
    rw [hres, List.append_assoc, List.getElem?_append_right (by omega), hleni]
    simp
  have hlast : (sendBulkMessage (numbers.take (i + 1)) message s).2.log <+: s1.log := by
    simp only [sendBulkMessage]
    rw [htake, h3, hs]
    exact hpre2
  refine ⟨r, _, _, rfl, rfl, hget, hr, hpre, ?_, hlast⟩
  simp only [sendBulkMessage]
  rw [htake, h3]
  exact hlog3

theorem sendBulkMessage_results_witness :
    (sendBulkMessage ["+1 (555) 000-1111", "0000000000", "15551230000"] "hi" demoSystem).1 =
        .ok [{ success := true, messageId := some "3EB0A1", to_ := "+1 (555) 000-1111",
               error := none },
             { success := false, messageId := none, to_ := "0000000000",
               error := some "Number 0000000000 is not registered on WhatsApp" },
             { success := true, messageId := some "3EB0A1", to_ := "15551230000",
               error := none }] ∧
    ∃ results s1,
      sendBulkMessage ["+1 (555) 000-1111", "0000000000", "15551230000"] "hi" demoSystem =
        (.ok results, s1) ∧
      results.length = ["+1 (555) 000-1111", "0000000000", "15551230000"].length ∧
      results.map SendResult.to_ = ["+1 (555) 000-1111", "0000000000", "15551230000"] ∧
      ∀ (i : ℕ) (hi : i < ["+1 (555) 000-1111", "0000000000", "15551230000"].length),
        ∃ r si ti,
          si = (sendBulkMessage
            (["+1 (555) 000-1111", "0000000000", "15551230000"].take i) "hi" demoSystem).2 ∧
          ti = sendMessage ["+1 (555) 000-1111", "0000000000", "15551230000"][i] "hi" si ∧
          results[i]? = some r ∧
          ti.1 = .ok r ∧
          si.log <+: ti.2.log ∧
          (sendBulkMessage (["+1 (555) 000-1111", "0000000000", "15551230000"].take (i + 1))
              "hi" demoSystem).2.log =
            ti.2.log ++
              [(ti.2.clock, Event.push r),
               (ti.2.clock, Event.setTimeout (jsAdd 3000 (jsMul (ti.2.random 0).val 2000)))] ∧
          (sendBulkMessage (["+1 (555) 000-1111", "0000000000", "15551230000"].take (i + 1))
              "hi" demoSystem).2.log <+: s1.log :=
  ⟨by rfl,
   sendBulkMessage_results demoClient ["+1 (555) 000-1111", "0000000000", "15551230000"]
     "hi" demoSystem rfl⟩

/-! ## Rounding to doubles -/

theorem ulp_pos (x : ℚ) : 0 < ulp x := by
  unfold ulp
  positivity

theorem roundToEven_cases (u x : ℚ) :
    roundToEven u x = (⌊x / u⌋ : ℚ) * u ∨
      (roundToEven u x = ((⌊x / u⌋ : ℚ) + 1) * u ∧ (⌊x / u⌋ : ℚ) < x / u) := by
  unfold roundToEven
  have hfl : (⌊x / u⌋ : ℚ) ≤ x / u := Int.floor_le _
  split_ifs with h1 h2 h3
  · exact Or.inl rfl
  · exact Or.inr ⟨rfl, by linarith⟩
  · exact Or.inl rfl
  · refine Or.inr ⟨rfl, ?_⟩
    have : x / u - (⌊x / u⌋ : ℚ) = 1 / 2 := le_antisymm (not_lt.1 h2) (not_lt.1 h1)
    linarith

theorem roundToEven_ge (u x : ℚ) (hu : 0 < u) (m : ℤ) (h : (m : ℚ) * u ≤ x) :
    (m : ℚ) * u ≤ roundToEven u x := by
  have hq : (m : ℚ) ≤ x / u := by rwa [le_div_iff₀ hu]
  have hm : m ≤ ⌊x / u⌋ := Int.le_floor.2 hq
  have hmq : (m : ℚ) ≤ (⌊x / u⌋ : ℚ) := by exact_mod_cast hm
  rcases roundToEven_cases u x with h1 | ⟨h1, -⟩ <;> rw [h1]
  · exact mul_le_mul_of_nonneg_right hmq hu.le
  · exact mul_le_mul_of_nonneg_right (by linarith) hu.le

theorem roundToEven_le (u x : ℚ) (hu : 0 < u) (m : ℤ) (h : x ≤ (m : ℚ) * u) :
    roundToEven u x ≤ (m : ℚ) * u := by
  have hq : x / u ≤ (m : ℚ) := by rwa [div_le_iff₀ hu]
  have hfl : (⌊x / u⌋ : ℚ) ≤ x / u := Int.floor_le _
  rcases roundToEven_cases u x with h1 | ⟨h1, hlt⟩ <;> rw [h1]
  · exact mul_le_mul_of_nonneg_right (by linarith) hu.le
  · have hlt2 : (⌊x / u⌋ : ℚ) < (m : ℚ) := by linarith
    have hlt3 : ⌊x / u⌋ < m := by exact_mod_cast hlt2
    have hle : (⌊x / u⌋ : ℚ) + 1 ≤ (m : ℚ) := by exact_mod_cast hlt3
    exact mul_le_mul_of_nonneg_right hle hu.le

theorem ulp_dvd_grid (x : ℚ) (t : ℤ) (ht : -52 ≤ t) (hx : |x| < (2 : ℚ) ^ (t + 53)) :
    ∃ j : ℕ, ulp x * (2 : ℚ) ^ j = (2 : ℚ) ^ t := by
  have hk : max (Int.log 2 |x|) (-1022) - 52 ≤ t := by
    rcases (abs_nonneg x).eq_or_lt with h0 | hpos
    · rw [← h0, Int.log_of_right_le_zero 2 (le_refl (0 : ℚ))]
      simp
      omega
    · have hlog : Int.log 2 |x| < t + 53 :=
        (Int.lt_zpow_iff_log_lt (by norm_num) hpos).1 (by exact_mod_cast hx)
      have : max (Int.log 2 |x|) (-1022) ≤ t + 52 := max_le (by omega) (by omega)
      omega
  refine ⟨(t - (max (Int.log 2 |x|) (-1022) - 52)).toNat, ?_⟩
  unfold ulp
  rw [← zpow_natCast, ← zpow_add₀ (by norm_num : (2 : ℚ) ≠ 0)]
  congr 1
  rw [Int.toNat_of_nonneg (by omega)]
  ring

theorem roundDouble_ge_grid (x : ℚ) (c : ℕ) (t : ℤ) (ht : -52 ≤ t)
    (hx : |x| < (2 : ℚ) ^ (t + 53)) (h : (c : ℚ) * (2 : ℚ) ^ t ≤ x) :
    (c : ℚ) * (2 : ℚ) ^ t ≤ roundDouble x := by
  obtain ⟨j, hj⟩ := ulp_dvd_grid x t ht hx
  have hm : (c : ℚ) * (2 : ℚ) ^ t = (((c * 2 ^ j : ℕ) : ℤ) : ℚ) * ulp x := by
    rw [← hj]
    push_cast
    ring
  rw [hm] at h ⊢
  exact roundToEven_ge (ulp x) x (ulp_pos x) _ h

theorem roundDouble_le_grid (x : ℚ) (c : ℕ) (t : ℤ) (ht : -52 ≤ t)
    (hx : |x| < (2 : ℚ) ^ (t + 53)) (h : x ≤ (c : ℚ) * (2 : ℚ) ^ t) :
    roundDouble x ≤ (c : ℚ) * (2 : ℚ) ^ t := by
  obtain ⟨j, hj⟩ := ulp_dvd_grid x t ht hx
  have hm : (c : ℚ) * (2 : ℚ) ^ t = (((c * 2 ^ j : ℕ) : ℤ) : ℚ) * ulp x := by
    rw [← hj]
    push_cast
    ring
  rw [hm] at h ⊢
  exact roundToEven_le (ulp x) x (ulp_pos x) _ h

/-- The delay `3000 + r * 2000` computed in doubles lies in `[3000, 5000]`. -/
theorem delay_bounds (r : ℚ) (h0 : 0 ≤ r) (h1 : r < 1) :
    3000 ≤ jsAdd 3000 (jsMul r 2000) ∧ jsAdd 3000 (jsMul r 2000) ≤ 5000 := by
  have hx1 : |r * 2000| < (2 : ℚ) ^ ((4 : ℤ) + 53) := by
    rw [abs_of_nonneg (by positivity)]
    norm_num
    linarith
  have hp0 : 0 ≤ jsMul r 2000 := by
    have := roundDouble_ge_grid (r * 2000) 0 4 (by norm_num) hx1 (by simpa using by positivity)
    simpa [jsMul] using this
  have hp1 : jsMul r 2000 ≤ 2000 := by
    have := roundDouble_le_grid (r * 2000) 125 4 (by norm_num) hx1 (by norm_num; linarith)
    unfold jsMul
    norm_num at this
    exact this
  have hx2 : |3000 + jsMul r 2000| < (2 : ℚ) ^ ((3 : ℤ) + 53) := by
    rw [abs_of_nonneg (by positivity)]
    norm_num
    linarith
  constructor
  · have := roundDouble_ge_grid (3000 + jsMul r 2000) 375 3 (by norm_num) hx2
      (by norm_num; linarith)
    unfold jsAdd
    norm_num at this
    exact this
  · have := roundDouble_le_grid (3000 + jsMul r 2000) 625 3 (by norm_num) hx2
      (by norm_num; linarith)
    unfold jsAdd
    norm_num at this
    exact this

theorem ulp_binade (x : ℚ) (e : ℤ) (he : -1022 ≤ e) (h1 : (2 : ℚ) ^ e ≤ x)
    (h2 : x < (2 : ℚ) ^ (e + 1)) : ulp x = (2 : ℚ) ^ (e - 52) := by
  have hpos : 0 < x := lt_of_lt_of_le (by positivity) h1
  have hlog : Int.log 2 |x| = e := by
    rw [abs_of_pos hpos]
    apply le_antisymm
    · have := (Int.lt_zpow_iff_log_lt (by norm_num : 1 < 2) hpos).1 (by exact_mod_cast h2)
      omega
    · exact (Int.zpow_le_iff_le_log (by norm_num : 1 < 2) hpos).1 (by exact_mod_cast h1)
  unfold ulp
  rw [hlog, max_eq_left he]

theorem roundToEven_down (u x : ℚ) (f : ℤ) (hf : (f : ℚ) ≤ x / u)
    (hlt : x / u - (f : ℚ) < 1 / 2) : roundToEven u x = (f : ℚ) * u := by
  have hfl : ⌊x / u⌋ = f := Int.floor_eq_iff.2 ⟨hf, by linarith⟩
  unfold roundToEven
  rw [hfl, if_pos hlt]

theorem roundToEven_up (u x : ℚ) (f : ℤ) (hf : x / u < (f : ℚ) + 1)
    (hgt : 1 / 2 < x / u - (f : ℚ)) : roundToEven u x = ((f : ℚ) + 1) * u := by
  have hfl : ⌊x / u⌋ = f := Int.floor_eq_iff.2 ⟨by linarith, hf⟩
  unfold roundToEven
  rw [hfl, if_neg (by linarith), if_pos hgt]

/-- The delay computed from the draw one half. -/
theorem delay_half : jsAdd 3000 (jsMul half.val 2000) = 4000 := by
  change jsAdd 3000 (jsMul (1 / 2) 2000) = 4000
  have h1 : jsMul (1 / 2) 2000 = 1000 := by
    unfold jsMul roundDouble
    rw [ulp_binade _ 9 (by norm_num) (by norm_num) (by norm_num),
      roundToEven_down _ _ (1000 * 2 ^ 43) (by norm_num) (by norm_num)]
    norm_num
  rw [h1]
  unfold jsAdd roundDouble
  rw [ulp_binade _ 11 (by norm_num) (by norm_num) (by norm_num),
    roundToEven_down _ _ (4000 * 2 ^ 41) (by norm_num) (by norm_num)]
  norm_num

/-- The delay computed from the largest draw: the product rounds to `2000 - 2 ^ (-42)`
and the sum `5000 - 2 ^ (-42)` rounds up to 5000. -/
theorem delay_top : jsAdd 3000 (jsMul topDraw.val 2000) = 5000 := by
  change jsAdd 3000 (jsMul (1 - 1 / 2 ^ 53) 2000) = 5000
  have h1 : jsMul (1 - 1 / 2 ^ 53) 2000 = 2000 - 1 / 2 ^ 42 := by
    unfold jsMul roundDouble
    rw [ulp_binade _ 10 (by norm_num) (by norm_num) (by norm_num),
      roundToEven_down _ _ (2000 * 2 ^ 42 - 1) (by norm_num) (by norm_num)]
    norm_num
  rw [h1]
  unfold jsAdd roundDouble
  rw [ulp_binade _ 12 (by norm_num) (by norm_num) (by norm_num),
    roundToEven_up _ _ (5000 * 2 ^ 40 - 1) (by norm_num) (by norm_num)]
  norm_num

/-- The largest draw is a double. -/
theorem top_is_double : roundDouble topDraw.val = topDraw.val := by
  change roundDouble (1 - 1 / 2 ^ 53) = 1 - 1 / 2 ^ 53
  unfold roundDouble
  rw [ulp_binade _ (-1) (by norm_num) (by norm_num) (by norm_num),
    roundToEven_down _ _ (2 ^ 53 - 1) (by norm_num) (by norm_num)]
  norm_num

/-! ## Delays and spacing of bulk sends -/

theorem sendTimes_append (a b : List (ℚ × Event)) :
    sendTimes (a ++ b) = sendTimes a ++ sendTimes b := by
  simp [sendTimes]

theorem mem_sendTimes (l : List (ℚ × Event)) (t : ℚ) (h : t ∈ sendTimes l) :
    ∃ p ∈ l, p.1 = t := by
  simp only [sendTimes, List.mem_map, List.mem_filter] at h
  obtain ⟨p, ⟨hp, -⟩, ht⟩ := h
  exact ⟨p, hp, ht⟩

theorem pairwise_short {R : ℚ → ℚ → Prop} (l : List ℚ) (h : l.length ≤ 1) :
    l.Pairwise R := by
  match l, h with
  | [], _ => exact List.Pairwise.nil
  | [a], _ => exact List.pairwise_singleton R a
  | _ :: _ :: _, h => simp at h

/-- The driver calls of one `sendMessage` contain at most one send time, and it lies
between the clock before and the clock after. -/
theorem CallsOnly.sendTimes_bounds {s s1 : System W} {calls : List (ℚ × Event)}
    (h : CallsOnly s s1 calls) :
    (sendTimes calls).length ≤ 1 ∧ ∀ t ∈ sendTimes calls, s.clock ≤ t ∧ t ≤ s1.clock := by
  refine ⟨?_, ?_⟩
  · have := h.once
    simpa [sendTimes, sendCount, List.countP_eq_length_filter] using this
  · intro t ht
    obtain ⟨p, hp, rfl⟩ := mem_sendTimes calls t ht
    exact h.stamps p hp

theorem CallsOnly.no_timer {s s1 : System W} {calls : List (ℚ × Event)}
    (h : CallsOnly s s1 calls) (t ms : ℚ) : (t, Event.setTimeout ms) ∉ calls := by
  intro hmem
  have := (h.driver _ hmem).1
  simp [isTimer] at this

/-- Spacing invariant of the loop: what the loop appends to the log has only timers of
the form `3000 + r * 2000` (in doubles) with `r` a `Math.random()` value, its driver sends are
pairwise at least 3000 ms apart and none is stamped before the loop starts. -/
theorem sendBulkLoop_spacing (message : String) (ns : List String) :
    ∀ (acc : List SendResult) (s : System W),
      ∃ new, (sendBulkLoop message ns acc s).2.log = s.log ++ new ∧
        s.clock ≤ (sendBulkLoop message ns acc s).2.clock ∧
        (∀ t ms, (t, Event.setTimeout ms) ∈ new → ∃ r : Draw, ms = jsAdd 3000 (jsMul r.val 2000)) ∧
        (sendTimes new).Pairwise (fun a b => a + 3000 ≤ b) ∧
        (∀ t ∈ sendTimes new, s.clock ≤ t) := by
  induction ns with
  | nil =>
    intro acc s
    exact ⟨[], by simp [sendBulkLoop], by simp [sendBulkLoop], by simp,
      by simp [sendTimes], by simp [sendTimes]⟩
  | cons x rest ih =>
    intro acc s
    obtain ⟨calls, hcalls⟩ := sendMessage_callsOnly x message s
    obtain ⟨hshort, hbounds⟩ := hcalls.sendTimes_bounds
    rcases hr : (sendMessage x message s).1 with e | r
    · have hsend : sendMessage x message s = (.error e, (sendMessage x message s).2) :=
        Prod.ext hr rfl
      have hloop : sendBulkLoop message (x :: rest) acc s =
          (.error e, (sendMessage x message s).2) := by
        simp only [sendBulkLoop]
        rw [hsend]
      rw [hloop]
      refine ⟨calls, hcalls.log, hcalls.clock, ?_, pairwise_short _ hshort, ?_⟩
      · intro t ms hmem
        exact absurd hmem (hcalls.no_timer t ms)
      · intro t ht
        exact (hbounds t ht).1
    · have hsend : sendMessage x message s = (.ok r, (sendMessage x message s).2) :=
        Prod.ext hr rfl
      rw [sendBulkLoop_cons message x rest acc s _ r hsend]
      generalize (sendMessage x message s).2 = s1 at hcalls hbounds
      obtain ⟨new, hlog, hclock, htimers, hpair, hafter⟩ :=
        ih (acc ++ [r]) (sleep (jsAdd 3000 (jsMul (mathRandom (push r s1)).1 2000))
          (mathRandom (push r s1)).2)
      have hdraw : (3000 : ℚ) ≤ jsAdd 3000 (jsMul (s1.random 0).val 2000) :=
        (delay_bounds _ (s1.random 0).nonneg (s1.random 0).lt_one).1
      have hclock4 : (sleep (jsAdd 3000 (jsMul (mathRandom (push r s1)).1 2000))
          (mathRandom (push r s1)).2).clock = s1.clock + (jsAdd 3000 (jsMul (s1.random 0).val 2000)) := by
        simp [sleep, mathRandom, push]
      have hlog4 : (sleep (jsAdd 3000 (jsMul (mathRandom (push r s1)).1 2000))
          (mathRandom (push r s1)).2).log =
          s.log ++ (calls ++ [(s1.clock, Event.push r),
            (s1.clock, Event.setTimeout (jsAdd 3000 (jsMul (s1.random 0).val 2000)))]) := by
        simp [sleep, mathRandom, push, hcalls.log]
      rw [hclock4] at hclock hafter
      rw [hlog4] at hlog
      refine ⟨(calls ++ [(s1.clock, Event.push r),
          (s1.clock, Event.setTimeout (jsAdd 3000 (jsMul (s1.random 0).val 2000)))]) ++ new,
        ?_, ?_, ?_, ?_, ?_⟩
      · rw [hlog, List.append_assoc]
      · have := hcalls.clock
        linarith
      · intro t ms hmem
        rcases List.mem_append.1 hmem with h1 | h1
        · rcases List.mem_append.1 h1 with h2 | h2
          · exact absurd h2 (hcalls.no_timer t ms)
          · simp only [List.mem_cons, Prod.mk.injEq, List.mem_singleton, reduceCtorEq,
              and_false, false_or, List.not_mem_nil, or_false] at h2
            exact ⟨s1.random 0, by rw [Event.setTimeout.injEq] at h2; exact h2.2⟩
        · exact htimers t ms h1
      · rw [sendTimes_append, sendTimes_append]
        have hnil : sendTimes [(s1.clock, Event.push r),
            (s1.clock, Event.setTimeout (jsAdd 3000 (jsMul (s1.random 0).val 2000)))] = [] := by
          simp [sendTimes, isSend]
        rw [hnil, List.append_nil, List.pairwise_append]
        refine ⟨pairwise_short _ hshort, hpair, ?_⟩
        intro a ha b hb
        have h1 := (hbounds a ha).2
        have h2 := hafter b hb
        linarith
      · intro t ht
        rw [sendTimes_append, sendTimes_append] at ht
        rcases List.mem_append.1 ht with h1 | h1
        · rcases List.mem_append.1 h1 with h2 | h2
          · exact (hbounds t h2).1
          · simp [sendTimes, isSend] at h2
        · have h2 := hafter t h1
          have := hcalls.clock
          linarith

/-- C7 (as stated) fails: with `Math.random()` returning the largest double below 1
(a double, and less than 1), the delay `3000 + r * 2000` computed in doubles is exactly
5000, so the timer set after the single recipient is not below 5000 ms. -/
theorem sendBulkMessage_delay_reaches_5000 :
    roundDouble topDraw.val = topDraw.val ∧ topDraw.val < 1 ∧
      (125, Event.setTimeout 5000) ∈
        (sendBulkMessage ["+1 (555) 000-1111"] "hi"
          { demoSystem with random := fun _ => topDraw }).2.log ∧
      ¬ ((5000 : ℚ) < 5000) := by
  have hn : normalizeRecipient "+1 (555) 000-1111" = .ok "15550001111@c.us" := by rfl
  refine ⟨top_is_double, topDraw.lt_one, ?_, lt_irrefl _⟩
  simp [sendBulkMessage, sendBulkLoop, sendMessage, getWhatsAppClient, sendMessageTry, hn,
    call, push, mathRandom, sleep, demoSystem, demoClient, delay_top]
  norm_num

/-- C7 (as the code behaves): every timer set by `sendBulkMessage` has the delay
`3000 + r * 2000`, computed in doubles, for a `Math.random()` value `r` (`0 ≤ r < 1`),
hence a delay in `[3000, 5000]`; and on the simulated clock any two driver sends issued
within one invocation are at least 3000 ms apart, for every recipient list, every
driver and every stream of random draws. -/
theorem sendBulkMessage_spacing (numbers : List String) (message : String) (s : System W) :
    ∃ new, (sendBulkMessage numbers message s).2.log = s.log ++ new ∧
      (∀ t ms, (t, Event.setTimeout ms) ∈ new →
        (∃ r : Draw, ms = jsAdd 3000 (jsMul r.val 2000)) ∧ 3000 ≤ ms ∧ ms ≤ 5000) ∧
      (sendTimes new).Pairwise (fun a b => a + 3000 ≤ b) := by
  obtain ⟨new, hlog, -, htimers, hpair, -⟩ := sendBulkLoop_spacing message numbers [] s
  refine ⟨new, hlog, ?_, hpair⟩
  intro t ms hmem
  obtain ⟨r, hr⟩ := htimers t ms hmem
  have hb := delay_bounds r.val r.nonneg r.lt_one
  exact ⟨⟨r, hr⟩, by rw [hr]; exact hb.1, by rw [hr]; exact hb.2⟩

theorem sendBulkMessage_spacing_witness :
    sendTimes (sendBulkMessage ["+1 (555) 000-1111", "15551230000"] "hi" demoSystem).2.log =
        [25, 4150] ∧
    ∃ new, (sendBulkMessage ["+1 (555) 000-1111", "15551230000"] "hi" demoSystem).2.log =
        demoSystem.log ++ new ∧
      (∀ t ms, (t, Event.setTimeout ms) ∈ new →
        (∃ r : Draw, ms = jsAdd 3000 (jsMul r.val 2000)) ∧ 3000 ≤ ms ∧ ms ≤ 5000) ∧
      (sendTimes new).Pairwise (fun a b => a + 3000 ≤ b) := by
  have h1 : normalizeRecipient "+1 (555) 000-1111" = .ok "15550001111@c.us" := by rfl
  have h2 : normalizeRecipient "15551230000" = .ok "15551230000@c.us" := by rfl
  refine ⟨?_, sendBulkMessage_spacing ["+1 (555) 000-1111", "15551230000"] "hi" demoSystem⟩
  simp [sendBulkMessage, sendBulkLoop, sendMessage, getWhatsAppClient, sendMessageTry, h1, h2,
    call, push, mathRandom, sleep, demoSystem, demoClient, delay_half, sendTimes, isSend]
  norm_num

/-- Delay invariant of the loop with the client initialised: one timer per recipient,
every push at least 3000 ms before the loop ends, and a timer as the last thing
logged. -/
theorem sendBulkLoop_delays (c : Client W) (message : String) (ns : List String) :
    ∀ (acc : List SendResult) (s : System W), s.client = some c →
      ∃ new, (sendBulkLoop message ns acc s).2.log = s.log ++ new ∧
        timerCount new = ns.length ∧
        (∀ p ∈ new, isPush p = true → p.1 + 3000 ≤ (sendBulkLoop message ns acc s).2.clock) ∧
        (∀ q, new.getLast? = some q → isTimer q = true) := by
  induction ns with
  | nil =>
    intro acc s _
    exact ⟨[], by simp [sendBulkLoop], by simp [timerCount], by simp, by simp⟩
  | cons x rest ih =>
    intro acc s hc
    obtain ⟨r, hr, -⟩ := sendMessage_ok c x message s hc
    obtain ⟨calls, hcalls⟩ := sendMessage_callsOnly x message s
    have hsend : sendMessage x message s = (.ok r, (sendMessage x message s).2) :=
      Prod.ext hr rfl
    rw [sendBulkLoop_cons message x rest acc s _ r hsend]
    generalize (sendMessage x message s).2 = s1 at hcalls
    have hc4 : (sleep (jsAdd 3000 (jsMul (mathRandom (push r s1)).1 2000))
        (mathRandom (push r s1)).2).client = some c := by
      simp [sleep, mathRandom, push, hcalls.client, hc]
    obtain ⟨new, hlog, hcount, hpush, hlast⟩ := ih (acc ++ [r]) _ hc4
    obtain ⟨-, -, hmono, -, -, -⟩ := sendBulkLoop_spacing message rest (acc ++ [r])
      (sleep (jsAdd 3000 (jsMul (mathRandom (push r s1)).1 2000)) (mathRandom (push r s1)).2)
    have hdraw : (3000 : ℚ) ≤ jsAdd 3000 (jsMul (s1.random 0).val 2000) :=
        (delay_bounds _ (s1.random 0).nonneg (s1.random 0).lt_one).1
    have hclock4 : (sleep (jsAdd 3000 (jsMul (mathRandom (push r s1)).1 2000))
        (mathRandom (push r s1)).2).clock = s1.clock + (jsAdd 3000 (jsMul (s1.random 0).val 2000)) := by
      simp [sleep, mathRandom, push]
    have hlog4 : (sleep (jsAdd 3000 (jsMul (mathRandom (push r s1)).1 2000))
        (mathRandom (push r s1)).2).log =
        s.log ++ (calls ++ [(s1.clock, Event.push r),
          (s1.clock, Event.setTimeout (jsAdd 3000 (jsMul (s1.random 0).val 2000)))]) := by
      simp [sleep, mathRandom, push, hcalls.log]
    rw [hclock4] at hmono
    rw [hlog4] at hlog
    refine ⟨(calls ++ [(s1.clock, Event.push r),
        (s1.clock, Event.setTimeout (jsAdd 3000 (jsMul (s1.random 0).val 2000)))]) ++ new,
      ?_, ?_, ?_, ?_⟩
    · rw [hlog, List.append_assoc]
    · have hzero : List.countP isTimer calls = 0 := by
        rw [List.countP_eq_zero]
        intro p hp
        simp [(hcalls.driver p hp).1]
      simp only [timerCount] at hcount ⊢
      rw [List.countP_append, List.countP_append, hzero, hcount]
      simp [isTimer]
      omega
    · intro p hp hpu
      rcases List.mem_append.1 hp with h1 | h1
      · rcases List.mem_append.1 h1 with h2 | h2
        · rw [(hcalls.driver p h2).2] at hpu
          cases hpu
        · simp only [List.mem_cons, List.mem_singleton, List.not_mem_nil, or_false] at h2
          rcases h2 with h3 | h3
          · subst h3
            simp only
            linarith
          · subst h3
            simp [isPush] at hpu
      · exact hpush p h1 hpu
    · intro q hq
      rw [List.getLast?_append] at hq
      rcases hnew : new.getLast? with _ | q1
      · rw [hnew] at hq
        simp only [Option.or, List.getLast?_append] at hq
        simp at hq
        subst hq
        rfl
      · rw [hnew] at hq
        simp only [Option.or] at hq
        injection hq with hq
        subst hq
        exact hlast _ hnew

/-- C6 (as the code behaves): with the client initialised, `sendBulkMessage` on `n`
recipients sets exactly `n` timers, one after each attempt and also after the last
one: every result is pushed at least 3000 ms before the function returns, and for a
non-empty input the last thing done before returning is a timer. -/
theorem sendBulkMessage_delays (c : Client W) (numbers : List String) (message : String)
    (s : System W) (hc : s.client = some c) :
    ∃ new, (sendBulkMessage numbers message s).2.log = s.log ++ new ∧
      timerCount new = numbers.length ∧
      (∀ p ∈ new, isPush p = true →
        p.1 + 3000 ≤ (sendBulkMessage numbers message s).2.clock) ∧
      (numbers ≠ [] → ∃ q, new.getLast? = some q ∧ isTimer q = true) := by
  obtain ⟨new, hlog, hcount, hpush, hlast⟩ := sendBulkLoop_delays c message numbers [] s hc
  refine ⟨new, hlog, hcount, hpush, ?_⟩
  intro hne
  rcases hnew : new.getLast? with _ | q
  · rw [List.getLast?_eq_none_iff] at hnew
    subst hnew
    simp only [timerCount, List.countP_nil] at hcount
    exact absurd (List.length_eq_zero.1 hcount.symm) hne
  · exact ⟨q, rfl, hlast q hnew⟩

theorem sendBulkMessage_delays_witness :
    ∃ new, (sendBulkMessage ["+1 (555) 000-1111", "0000000000"] "hi" demoSystem).2.log =
        demoSystem.log ++ new ∧
      timerCount new = ["+1 (555) 000-1111", "0000000000"].length ∧
      (∀ p ∈ new, isPush p = true →
        p.1 + 3000 ≤
          (sendBulkMessage ["+1 (555) 000-1111", "0000000000"] "hi" demoSystem).2.clock) ∧
      (["+1 (555) 000-1111", "0000000000"] ≠ [] →
        ∃ q, new.getLast? = some q ∧ isTimer q = true) :=
  sendBulkMessage_delays demoClient ["+1 (555) 000-1111", "0000000000"] "hi" demoSystem rfl

/-- C6 (as stated) fails: for the single recipient `+1 (555) 000-1111` the bulk send
sets one timer, not `n - 1 = 0`; the timer of 4000 ms is set at time 125, after the
result was pushed, and the results are returned at time 4125. -/
theorem sendBulkMessage_delay_after_last :
    (sendBulkMessage ["+1 (555) 000-1111"] "hi" demoSystem).2.log =
        [(0, Event.getState),
         (5, Event.isRegisteredUser "15550001111@c.us"),
         (25, Event.sendMessage "15550001111@c.us" "hi"),
         (125, Event.push { success := true, messageId := some "3EB0A1",
                            to_ := "+1 (555) 000-1111", error := none }),
         (125, Event.setTimeout 4000)] ∧
      (sendBulkMessage ["+1 (555) 000-1111"] "hi" demoSystem).2.clock = 4125 ∧
      timerCount (sendBulkMessage ["+1 (555) 000-1111"] "hi" demoSystem).2.log = 1 ∧
      timerCount (sendBulkMessage ["+1 (555) 000-1111"] "hi" demoSystem).2.log ≠
        ["+1 (555) 000-1111"].length - 1 := by
  have hn : normalizeRecipient "+1 (555) 000-1111" = .ok "15550001111@c.us" := by rfl
  have hlog : (sendBulkMessage ["+1 (555) 000-1111"] "hi" demoSystem).2.log =
      [(0, Event.getState),
       (5, Event.isRegisteredUser "15550001111@c.us"),
       (25, Event.sendMessage "15550001111@c.us" "hi"),
       (125, Event.push { success := true, messageId := some "3EB0A1",
                          to_ := "+1 (555) 000-1111", error := none }),
       (125, Event.setTimeout 4000)] := by
    simp [sendBulkMessage, sendBulkLoop, sendMessage, getWhatsAppClient, sendMessageTry, hn,
      call, push, mathRandom, sleep, demoSystem, demoClient, delay_half]
    norm_num
  refine ⟨hlog, ?_, ?_, ?_⟩
  · simp [sendBulkMessage, sendBulkLoop, sendMessage, getWhatsAppClient, sendMessageTry, hn,
      call, push, mathRandom, sleep, demoSystem, demoClient, delay_half]
    norm_num
  · rw [hlog]
    simp [timerCount, isTimer]
  · rw [hlog]
    simp [timerCount, isTimer]

/-! ## Challenge and status queries -/

/-- C11: in every state `getQRCode` returns an encoded challenge only if the tracked
state is exactly `awaiting-authentication`; in every other state it returns `null`, it
returns `null` whenever no challenge is stored, and it returns `null` right after a
`ready` event.  While the state is `awaiting-authentication` and a non-empty challenge
is stored it returns the encoding of that challenge. -/
theorem getQRCode_only_awaiting (toDataURL : String → Except String String)
    (s : System W) :
    (∀ url, getQRCode toDataURL s = .ok (some url) →
      s.clientStatus = "awaiting-authentication") ∧
    (s.clientStatus ≠ "awaiting-authentication" → getQRCode toDataURL s = .ok none) ∧
    (s.qrCode = none → getQRCode toDataURL s = .ok none) ∧
    getQRCode toDataURL (onReady s) = .ok none ∧
    (∀ qr url, s.clientStatus = "awaiting-authentication" → s.qrCode = some qr →
      qr ≠ "" → toDataURL qr = .ok url → getQRCode toDataURL s = .ok (some url)) := by
  refine ⟨?_, ?_, ?_, ?_, ?_⟩
  · intro url h
    by_contra hne
    simp [getQRCode, hne] at h
  · intro hne
    simp [getQRCode, hne]
  · intro hq
    simp [getQRCode, hq, truthy]
  · have hst : (onReady s).clientStatus = "connected" := by
      unfold onReady
      rcases s.client with _ | c <;> simp [emit, call]
    simp [getQRCode, hst]
  · intro qr url hst hq hne hurl
    simp [getQRCode, hst, hq, truthy, hne, hurl]

theorem getQRCode_only_awaiting_witness :
    getQRCode demoDataURL (onQr demoDataURL "2@Zk9" demoSystem) =
        .ok (some "data:image/png;base64,2@Zk9") ∧
      getQRCode demoDataURL (onReady (onQr demoDataURL "2@Zk9" demoSystem)) = .ok none ∧
      getQRCode demoDataURL demoSystem = .ok none :=
  ⟨(getQRCode_only_awaiting demoDataURL (onQr demoDataURL "2@Zk9" demoSystem)).2.2.2.2
      "2@Zk9" "data:image/png;base64,2@Zk9" rfl rfl (by decide) rfl,
   (getQRCode_only_awaiting demoDataURL (onQr demoDataURL "2@Zk9" demoSystem)).2.2.2.1,
   (getQRCode_only_awaiting demoDataURL demoSystem).2.1 (by decide)⟩

/-- C12 (as stated) fails: the driver `idleClient` answers the state query with
`null`; the query succeeds, yet `getConnectionStatus` returns the tracked state
`disconnected`, not the live driver state. -/
theorem getConnectionStatus_null_state :
    (idleClient.getState 0).outcome = .ok none ∧
      (getConnectionStatus { demoSystem with client := some idleClient }).1 =
        .ok "disconnected" := by
  constructor <;> rfl

/-- C12 (as the code behaves): `getConnectionStatus` never raises, in any state, also
before a client exists.  When the driver's state query succeeds with a non-empty state
it returns that live state; when the query succeeds with `null` or with an empty
state, when it fails, and when no client exists, it returns the tracked
`clientStatus`. -/
theorem getConnectionStatus_fallback (s : System W) :
    (∃ v, (getConnectionStatus s).1 = .ok v) ∧
    (s.client = none → (getConnectionStatus s).1 = .ok s.clientStatus) ∧
    ∀ c, s.client = some c →
      (∀ st, (c.getState s.world).outcome = .ok (some st) → st ≠ "" →
        (getConnectionStatus s).1 = .ok st) ∧
      ((c.getState s.world).outcome = .ok none ∨
          (c.getState s.world).outcome = .ok (some "") →
        (getConnectionStatus s).1 = .ok s.clientStatus) ∧
      (∀ e, (c.getState s.world).outcome = .error e →
        (getConnectionStatus s).1 = .ok s.clientStatus) := by
  refine ⟨?_, ?_, ?_⟩
  · rcases hc : s.client with _ | c
    · exact ⟨s.clientStatus, by simp [getConnectionStatus, hc]⟩
    · rcases hg : (c.getState s.world).outcome with e | st
      · exact ⟨s.clientStatus, by simp [getConnectionStatus, hc, call, hg]⟩
      · exact ⟨if truthy st then render st else s.clientStatus,
          by simp [getConnectionStatus, hc, call, hg]⟩
  · intro hc
    simp [getConnectionStatus, hc]
  · intro c hc
    refine ⟨?_, ?_, ?_⟩
    · intro st hg hne
      simp [getConnectionStatus, hc, call, hg, truthy, hne, render]
    · rintro (hg | hg) <;> simp [getConnectionStatus, hc, call, hg, truthy]
    · intro e hg
      simp [getConnectionStatus, hc, call, hg]

theorem getConnectionStatus_fallback_witness :
    (getConnectionStatus demoSystem).1 = .ok "CONNECTED" ∧
      (getConnectionStatus { demoSystem with client := none }).1 =
        .ok ({ demoSystem with client := none } : System ℕ).clientStatus :=
  ⟨((getConnectionStatus_fallback demoSystem).2.2 demoClient rfl).1 "CONNECTED" rfl
      (by decide),
   (getConnectionStatus_fallback { demoSystem with client := none }).2.1 rfl⟩

/-! ## The retrying initialisation -/

/-- A successful run of `startWithRetry`: the counter is reset and nothing else of the
module state changes. -/
theorem startWithRetry_ok (c : Client W) (s : System W) (hc : s.client = some c)
    (h : (c.init s.world).outcome = .ok ()) :
    (startWithRetry s).client = some c ∧
    (startWithRetry s).world = (c.init s.world).world ∧
    (startWithRetry s).retries = 0 ∧
    (startWithRetry s).scheduled = s.scheduled ∧
    (startWithRetry s).clientStatus = s.clientStatus ∧
    (startWithRetry s).qrCode = s.qrCode ∧
    (startWithRetry s).emitted = s.emitted ∧
    (startWithRetry s).authDir = s.authDir := by
  simp [startWithRetry, awaitInit, hc, call, h]

/-- A failed run of `startWithRetry` below the retry limit: state `error`, sink
notified, counter incremented, one retry scheduled with the backoff delay. -/
theorem startWithRetry_backoff (c : Client W) (s : System W) (e : String)
    (hc : s.client = some c) (h : (c.init s.world).outcome = .error e)
    (hr : s.retries < 3) :
    (startWithRetry s).client = some c ∧
    (startWithRetry s).world = (c.init s.world).world ∧
    (startWithRetry s).retries = s.retries + 1 ∧
    (startWithRetry s).scheduled =
      s.scheduled ++ [(min 60000 (10000 * 2 ^ (s.retries + 1)), Callback.startWithRetry)] ∧
    (startWithRetry s).clientStatus = "error" ∧
    (startWithRetry s).qrCode = s.qrCode ∧
    (startWithRetry s).emitted = s.emitted ++ [("status", "Error")] ∧
    (startWithRetry s).authDir = s.authDir := by
  simp [startWithRetry, awaitInit, hc, call, h, emit, setTimeout, maxRetries, hr]

/-- A failed run of `startWithRetry` at the retry limit: state `error`, sink notified,
credential directory removed, counter reset, one retry scheduled after 30 minutes. -/
theorem startWithRetry_cooldown (c : Client W) (s : System W) (e : String)
    (hc : s.client = some c) (h : (c.init s.world).outcome = .error e)
    (hr : ¬ s.retries < 3) :
    (startWithRetry s).client = some c ∧
    (startWithRetry s).world = (c.init s.world).world ∧
    (startWithRetry s).retries = 0 ∧
    (startWithRetry s).scheduled = s.scheduled ++ [(1800000, Callback.startWithRetry)] ∧
    (startWithRetry s).clientStatus = "error" ∧
    (startWithRetry s).qrCode = s.qrCode ∧
    (startWithRetry s).emitted = s.emitted ++ [("status", "Error")] ∧
    (startWithRetry s).authDir = false := by
  simp [startWithRetry, awaitInit, hc, call, h, emit, setTimeout, rmSync, maxRetries, hr]

theorem onReady_fields (s : System W) :
    (onReady s).clientStatus = "connected" ∧ (onReady s).qrCode = none ∧
    (onReady s).retries = s.retries ∧ (onReady s).scheduled = s.scheduled ∧
    (onReady s).emitted = s.emitted ++ [("status", "Connected")] ∧
    (onReady s).authDir = s.authDir ∧ (onReady s).client = s.client := by
  unfold onReady
  rcases hc : s.client with _ | c <;> simp [emit, call, hc]

/-- C13 (as stated) fails: with `demoClient`, whose `initialize()` fails twice and then
succeeds, the two retries are scheduled after 20 s and 40 s and the counter ends at 0,
but after the successful initialisation the tracked state is `error`, not
`connected`. -/
theorem startWithRetry_success_keeps_status :
    retryDelays (startWithRetry (startWithRetry (startWithRetry demoSystem))) =
        [20000, 40000] ∧
      (startWithRetry (startWithRetry (startWithRetry demoSystem))).retries = 0 ∧
      (startWithRetry (startWithRetry (startWithRetry demoSystem))).clientStatus = "error" ∧
      (startWithRetry (startWithRetry (startWithRetry demoSystem))).clientStatus ≠
        "connected" := by
  have h1 := startWithRetry_backoff demoClient demoSystem _ rfl rfl (by decide)
  have h2 := startWithRetry_backoff demoClient (startWithRetry demoSystem) _ h1.1
    (by rw [h1.2.1]; rfl) (by rw [h1.2.2.1]; decide)
  have h3 := startWithRetry_ok demoClient (startWithRetry (startWithRetry demoSystem)) h2.1
    (by rw [h2.2.1, h1.2.1]; rfl)
  have hst : (startWithRetry (startWithRetry (startWithRetry demoSystem))).clientStatus =
      "error" := by rw [h3.2.2.2.2.1, h2.2.2.2.2.1]
  refine ⟨?_, h3.2.2.1, hst, ?_⟩
  · rw [retryDelays, h3.2.2.2.1, h2.2.2.2.1, h1.2.2.2.1, h1.2.2.1]
    decide
  · rw [hst]
    decide

/-- C13 (as the code behaves): starting from `retries = 0`, if `initialize()` fails
twice and then succeeds, `startWithRetry` schedules two retries, after 20 000 ms and
then 40 000 ms, and the successful run resets `retries` to 0 without touching the
tracked state, which is still `error`; the state becomes `connected` when the `ready`
event is handled, and `retries` stays 0. -/
theorem startWithRetry_two_failures (c : Client W) (s : System W) (e1 e2 : String)
    (hc : s.client = some c) (h0 : s.retries = 0)
    (h1 : (c.init s.world).outcome = .error e1)
    (h2 : (c.init (c.init s.world).world).outcome = .error e2)
    (h3 : (c.init (c.init (c.init s.world).world).world).outcome = .ok ()) :
    (startWithRetry (startWithRetry (startWithRetry s))).scheduled =
        s.scheduled ++
          [(20000, Callback.startWithRetry), (40000, Callback.startWithRetry)] ∧
      (startWithRetry (startWithRetry (startWithRetry s))).retries = 0 ∧
      (startWithRetry (startWithRetry (startWithRetry s))).clientStatus = "error" ∧
      (onReady (startWithRetry (startWithRetry (startWithRetry s)))).clientStatus =
        "connected" ∧
      (onReady (startWithRetry (startWithRetry (startWithRetry s)))).retries = 0 := by
  have a1 := startWithRetry_backoff c s e1 hc h1 (by omega)
  have a2 := startWithRetry_backoff c (startWithRetry s) e2 a1.1
    (by rw [a1.2.1]; exact h2) (by rw [a1.2.2.1]; omega)
  have a3 := startWithRetry_ok c (startWithRetry (startWithRetry s)) a2.1
    (by rw [a2.2.1, a1.2.1]; exact h3)
  have hr := onReady_fields (startWithRetry (startWithRetry (startWithRetry s)))
  refine ⟨?_, a3.2.2.1, ?_, hr.1, ?_⟩
  · rw [a3.2.2.2.1, a2.2.2.2.1, a1.2.2.2.1, a1.2.2.1, h0]
    simp
  · rw [a3.2.2.2.2.1, a2.2.2.2.2.1]
  · rw [hr.2.2.1, a3.2.2.1]

theorem startWithRetry_two_failures_witness :
    (startWithRetry (startWithRetry (startWithRetry demoSystem))).scheduled =
        demoSystem.scheduled ++
          [(20000, Callback.startWithRetry), (40000, Callback.startWithRetry)] ∧
      (startWithRetry (startWithRetry (startWithRetry demoSystem))).retries = 0 ∧
      (startWithRetry (startWithRetry (startWithRetry demoSystem))).clientStatus =
        "error" ∧
      (onReady (startWithRetry (startWithRetry (startWithRetry demoSystem)))).clientStatus =
        "connected" ∧
      (onReady (startWithRetry (startWithRetry (startWithRetry demoSystem)))).retries = 0 :=
  startWithRetry_two_failures demoClient demoSystem "Failed to launch the browser process"
    "Failed to launch the browser process" rfl rfl rfl rfl rfl

/-- While `initialize()` keeps failing, the client stays in place and the counter
after `k` runs of `startWithRetry` is `k % 4`. -/
theorem startWithRetry_iterate_failing (c : Client W) (s : System W)
    (hc : s.client = some c) (h0 : s.retries = 0)
    (hfail : ∀ w, ∃ e, (c.init w).outcome = .error e) :
    ∀ k, (startWithRetry^[k] s).client = some c ∧ (startWithRetry^[k] s).retries = k % 4 := by
  intro k
  induction k with
  | zero => exact ⟨hc, by simp [h0]⟩
  | succ k ih =>
    obtain ⟨e, he⟩ := hfail (startWithRetry^[k] s).world
    rw [Function.iterate_succ_apply']
    by_cases hr : (startWithRetry^[k] s).retries < 3
    · have a := startWithRetry_backoff c _ e ih.1 he hr
      refine ⟨a.1, ?_⟩
      rw [a.2.2.1, ih.2]
      rw [ih.2] at hr
      omega
    · have a := startWithRetry_cooldown c _ e ih.1 he hr
      refine ⟨a.1, ?_⟩
      rw [a.2.2.1]
      rw [ih.2] at hr
      omega

/-- C14: in a run of consecutive `initialize()` failures starting from `retries = 0`,
the retries are scheduled after 20 s, 40 s, 60 s and, for the 4th one, after the
30-minute cooldown (1 800 000 ms); when that 4th retry is scheduled the credential
directory is removed and `retries` is back to 0; and the cycle repeats for ever: after
`k` failures the counter is `k % 4`, the next failure schedules one retry with delay
`cycleDelay k`, and every 4th failure removes the credential directory. -/
theorem startWithRetry_cooldown_cycle (c : Client W) (s : System W)
    (hc : s.client = some c) (h0 : s.retries = 0)
    (hfail : ∀ w, ∃ e, (c.init w).outcome = .error e) :
    (startWithRetry^[4] s).scheduled =
        s.scheduled ++
          [(20000, Callback.startWithRetry), (40000, Callback.startWithRetry),
           (60000, Callback.startWithRetry), (1800000, Callback.startWithRetry)] ∧
      (startWithRetry^[3] s).retries = 3 ∧
      (startWithRetry^[4] s).retries = 0 ∧
      (startWithRetry^[4] s).authDir = false ∧
      ∀ k, (startWithRetry^[k] s).retries = k % 4 ∧
        (startWithRetry^[k + 1] s).scheduled =
          (startWithRetry^[k] s).scheduled ++ [(cycleDelay k, Callback.startWithRetry)] ∧
        (k % 4 = 3 → (startWithRetry^[k + 1] s).authDir = false) := by
  have inv := startWithRetry_iterate_failing c s hc h0 hfail
  have cycle : ∀ k, (startWithRetry^[k] s).retries = k % 4 ∧
      (startWithRetry^[k + 1] s).scheduled =
        (startWithRetry^[k] s).scheduled ++ [(cycleDelay k, Callback.startWithRetry)] ∧
      (k % 4 = 3 → (startWithRetry^[k + 1] s).authDir = false) := by
    intro k
    obtain ⟨e, he⟩ := hfail (startWithRetry^[k] s).world
    have hk := (inv k).2
    refine ⟨hk, ?_⟩
    rw [Function.iterate_succ_apply']
    by_cases hr : (startWithRetry^[k] s).retries < 3
    · have a := startWithRetry_backoff c _ e (inv k).1 he hr
      rw [hk] at hr
      refine ⟨?_, fun h3 => absurd h3 (by omega)⟩
      rw [a.2.2.2.1, hk]
      have hlt : k % 4 = 0 ∨ k % 4 = 1 ∨ k % 4 = 2 := by omega
      rcases hlt with h | h | h <;> simp [cycleDelay, h]
    · have a := startWithRetry_cooldown c _ e (inv k).1 he hr
      rw [hk] at hr
      have h3 : k % 4 = 3 := by
        have := Nat.mod_lt k (by decide : 4 > 0)
        omega
      refine ⟨?_, fun _ => a.2.2.2.2.2.2.2⟩
      rw [a.2.2.2.1]
      simp [cycleDelay, h3]
  refine ⟨?_, (inv 3).2, (inv 4).2, (cycle 3).2.2 rfl, cycle⟩
  have c0 := (cycle 0).2.1
  have c1 := (cycle 1).2.1
  have c2 := (cycle 2).2.1
  have c3 := (cycle 3).2.1
  simp only [Nat.reduceAdd] at c0 c1 c2 c3
  rw [c3, c2, c1, c0]
  simp [cycleDelay]

theorem startWithRetry_cooldown_cycle_witness :
    (startWithRetry^[4] { demoSystem with client := some brokenClient, authDir := true }).scheduled =
        ({ demoSystem with client := some brokenClient, authDir := true } :
            System ℕ).scheduled ++
          [(20000, Callback.startWithRetry), (40000, Callback.startWithRetry),
           (60000, Callback.startWithRetry), (1800000, Callback.startWithRetry)] ∧
      (startWithRetry^[3]
        { demoSystem with client := some brokenClient, authDir := true }).retries = 3 ∧
      (startWithRetry^[4]
        { demoSystem with client := some brokenClient, authDir := true }).retries = 0 ∧
      (startWithRetry^[4]
        { demoSystem with client := some brokenClient, authDir := true }).authDir = false ∧
      ∀ k, (startWithRetry^[k]
          { demoSystem with client := some brokenClient, authDir := true }).retries = k % 4 ∧
        (startWithRetry^[k + 1]
          { demoSystem with client := some brokenClient, authDir := true }).scheduled =
          (startWithRetry^[k]
            { demoSystem with client := some brokenClient, authDir := true }).scheduled ++
            [(cycleDelay k, Callback.startWithRetry)] ∧
        (k % 4 = 3 → (startWithRetry^[k + 1]
          { demoSystem with client := some brokenClient, authDir := true }).authDir = false) :=
  startWithRetry_cooldown_cycle brokenClient
    { demoSystem with client := some brokenClient, authDir := true } rfl rfl
    (fun _ => ⟨"Failed to launch the browser process", rfl⟩)

/-! ## Event handlers -/

/-- C15: in every state, the handler of `auth_failure` sets the state to
`auth-failure`, removes the credential directory, notifies the sink with
`status`/`Authentication Failure` and schedules exactly one timer: the
re-initialisation `() => client.initialize()` after exactly 10 000 ms.  The challenge
and the retry counter are untouched. -/
theorem onAuthFailure_effect (msg : String) (s : System W) :
    (onAuthFailure msg s).clientStatus = "auth-failure" ∧
    (onAuthFailure msg s).authDir = false ∧
    (onAuthFailure msg s).emitted = s.emitted ++ [("status", "Authentication Failure")] ∧
    (onAuthFailure msg s).scheduled = s.scheduled ++ [(10000, Callback.clientInit)] ∧
    (onAuthFailure msg s).qrCode = s.qrCode ∧
    (onAuthFailure msg s).retries = s.retries := by
  simp [onAuthFailure, setTimeout, emit, rmSync]

/-- C16: for every state and every reason, the handler of `disconnected` sets the state
to `disconnected`, notifies the sink with `status`/`Disconnected` and schedules exactly
one timer, the re-initialisation after 10 000 ms; the credential directory is removed
when the reason is `LOGOUT` or `BANNED` and is left as it was for every other reason, so
an existing directory is gone afterwards if and only if the reason is one of the
two. -/
theorem onDisconnected_effect (reason : String) (s : System W) :
    (onDisconnected reason s).clientStatus = "disconnected" ∧
    (onDisconnected reason s).emitted = s.emitted ++ [("status", "Disconnected")] ∧
    (onDisconnected reason s).scheduled = s.scheduled ++ [(10000, Callback.clientInit)] ∧
    (reason = "LOGOUT" ∨ reason = "BANNED" → (onDisconnected reason s).authDir = false) ∧
    (¬ (reason = "LOGOUT" ∨ reason = "BANNED") →
      (onDisconnected reason s).authDir = s.authDir) ∧
    (s.authDir = true →
      ((onDisconnected reason s).authDir = false ↔ reason = "LOGOUT" ∨ reason = "BANNED")) := by
  by_cases h : reason = "LOGOUT" ∨ reason = "BANNED"
  · simp [onDisconnected, setTimeout, emit, rmSync, h]
  · simp [onDisconnected, setTimeout, emit, rmSync, h]

theorem onDisconnected_effect_witness :
    (onDisconnected "LOGOUT" { demoSystem with authDir := true }).authDir = false ∧
      (onDisconnected "NAVIGATION" { demoSystem with authDir := true }).authDir =
        ({ demoSystem with authDir := true } : System ℕ).authDir :=
  ⟨(onDisconnected_effect "LOGOUT" { demoSystem with authDir := true }).2.2.2.1
      (Or.inl rfl),
   (onDisconnected_effect "NAVIGATION" { demoSystem with authDir := true }).2.2.2.2.1
      (by decide)⟩

/-- C18 (as stated) fails: the handler of the driver event `error` moves the machine to
the state `error` and schedules nothing; from a state with no timer pending it leaves
none pending. -/
theorem onError_schedules_nothing :
    (onError "Session closed" demoSystem).clientStatus = "error" ∧
      (onError "Session closed" demoSystem).scheduled = [] := by
  constructor <;> rfl

/-- C18 (as the code behaves): an initialisation failure in `startWithRetry`, an
`auth_failure` event and a `disconnected` event each move the machine to their failure
state and schedule exactly one re-initialisation; the driver event `error` moves it to
`error` and notifies the sink, and schedules nothing. -/
theorem failure_handlers_schedule (s : System W) :
    (∀ c e, s.client = some c → (c.init s.world).outcome = .error e →
      (startWithRetry s).clientStatus = "error" ∧
      ∃ delay, (startWithRetry s).scheduled =
        s.scheduled ++ [(delay, Callback.startWithRetry)]) ∧
    (∀ msg, (onAuthFailure msg s).clientStatus = "auth-failure" ∧
      (onAuthFailure msg s).scheduled = s.scheduled ++ [(10000, Callback.clientInit)]) ∧
    (∀ reason, (onDisconnected reason s).clientStatus = "disconnected" ∧
      (onDisconnected reason s).scheduled = s.scheduled ++ [(10000, Callback.clientInit)]) ∧
    (∀ err, (onError err s).clientStatus = "error" ∧
      (onError err s).emitted = s.emitted ++ [("status", "Error")] ∧
      (onError err s).scheduled = s.scheduled) := by
  refine ⟨?_, ?_, ?_, ?_⟩
  · intro c e hc he
    by_cases hr : s.retries < 3
    · have a := startWithRetry_backoff c s e hc he hr
      exact ⟨a.2.2.2.2.1, _, a.2.2.2.1⟩
    · have a := startWithRetry_cooldown c s e hc he hr
      exact ⟨a.2.2.2.2.1, _, a.2.2.2.1⟩
  · intro msg
    simp [onAuthFailure, setTimeout, emit, rmSync]
  · intro reason
    by_cases h : reason = "LOGOUT" ∨ reason = "BANNED" <;>
      simp [onDisconnected, setTimeout, emit, rmSync, h]
  · intro err
    simp [onError, emit]

theorem failure_handlers_schedule_witness :
    (startWithRetry demoSystem).clientStatus = "error" ∧
      ∃ delay, (startWithRetry demoSystem).scheduled =
        demoSystem.scheduled ++ [(delay, Callback.startWithRetry)] :=
  (failure_handlers_schedule demoSystem).1 demoClient
    "Failed to launch the browser process" rfl rfl

/-- C19 fails on the timers set by the `auth_failure` and `disconnected` handlers:
with a driver whose `initialize()` rejects, the callback `() => client.initialize()`
scheduled by the `auth_failure` handler lets the rejection escape; the state stays
`auth-failure` instead of becoming `error`, the sink hears nothing after
`Authentication Failure`, and no further timer is scheduled.  The same failure inside
`startWithRetry` is caught: state `error`, sink notified, one retry scheduled. -/
theorem clientInit_failure_escapes :
    (clientInit (onAuthFailure "auth timeout"
        { demoSystem with client := some brokenClient })).1 =
        .error "Failed to launch the browser process" ∧
      (clientInit (onAuthFailure "auth timeout"
        { demoSystem with client := some brokenClient })).2.clientStatus = "auth-failure" ∧
      (clientInit (onAuthFailure "auth timeout"
        { demoSystem with client := some brokenClient })).2.emitted =
        [("status", "Authentication Failure")] ∧
      (clientInit (onAuthFailure "auth timeout"
        { demoSystem with client := some brokenClient })).2.scheduled =
        [(10000, Callback.clientInit)] ∧
      (startWithRetry { demoSystem with client := some brokenClient }).clientStatus =
        "error" ∧
      (startWithRetry { demoSystem with client := some brokenClient }).emitted =
        [("status", "Error")] ∧
      (startWithRetry { demoSystem with client := some brokenClient }).scheduled =
        [(20000, Callback.startWithRetry)] := by
  refine ⟨?_, ?_, ?_, ?_, ?_, ?_, ?_⟩ <;> rfl

/-! ## Invariants of the session manager -/

theorem awaitInit_fields (s : System W) :
    (awaitInit s).2.retries = s.retries ∧ (awaitInit s).2.scheduled = s.scheduled ∧
    (awaitInit s).2.clientStatus = s.clientStatus ∧ (awaitInit s).2.qrCode = s.qrCode := by
  unfold awaitInit
  rcases s.client with _ | c <;> simp [call]

theorem onQr_fields (toDataURL : String → Except String String) (qr : String)
    (s : System W) :
    (onQr toDataURL qr s).retries = s.retries ∧
    (onQr toDataURL qr s).scheduled = s.scheduled ∧
    (onQr toDataURL qr s).clientStatus = "awaiting-authentication" ∧
    (onQr toDataURL qr s).qrCode = some qr := by
  unfold onQr
  rcases toDataURL qr with e | url <;> simp [emit]

theorem disconnect_fields (s : System W) :
    (disconnect s).2.retries = s.retries ∧ (disconnect s).2.scheduled = s.scheduled ∧
    (disconnect s).2.qrCode = s.qrCode ∧
    ((disconnect s).2.clientStatus = s.clientStatus ∨
      (disconnect s).2.clientStatus = "disconnected") := by
  unfold disconnect getWhatsAppClient
  rcases s.client with _ | c
  · simp
  · rcases h : (c.logout s.world).outcome with e | u <;> simp [call, h]

/-- What `startWithRetry` does to the tracked state and the challenge, whatever the
outcome of `initialize()`. -/
theorem startWithRetry_status (s : System W) :
    (startWithRetry s).qrCode = s.qrCode ∧
    ((startWithRetry s).clientStatus = s.clientStatus ∨
      (startWithRetry s).clientStatus = "error") := by
  have a := awaitInit_fields s
  unfold startWithRetry
  rcases h : awaitInit s with ⟨o | o, s1⟩
  · rw [h] at a
    simp only at a
    by_cases hr : s1.retries < maxRetries <;>
      simp [emit, setTimeout, rmSync, hr, a.2.2.2]
  · rw [h] at a
    simp only at a
    simp [a.2.2.1, a.2.2.2]

/-- One run of `startWithRetry` keeps the counter within 0..3 and schedules only
retries of 20 s, 40 s, 60 s or 30 min. -/
theorem startWithRetry_bounded (s : System W) (hb : RetryBounded s) :
    RetryBounded (startWithRetry s) := by
  have a := awaitInit_fields s
  obtain ⟨hle, hall⟩ := hb
  unfold startWithRetry
  rcases h : awaitInit s with ⟨o | o, s1⟩
  · rw [h] at a
    simp only at a
    have hle1 : s1.retries ≤ 3 := by rw [a.1]; exact hle
    have hall1 : ∀ p ∈ s1.scheduled, p.2 = Callback.startWithRetry →
        p.1 = 20000 ∨ p.1 = 40000 ∨ p.1 = 60000 ∨ p.1 = 1800000 := by
      rw [a.2.1]
      exact hall
    by_cases hr : s1.retries < 3
    · refine ⟨?_, ?_⟩
      · simp only [emit, setTimeout, maxRetries, hr, if_true]
        omega
      · intro p hp hcb
        simp only [emit, setTimeout, maxRetries, hr, if_true, List.mem_append,
          List.mem_singleton] at hp
        rcases hp with hp | hp
        · exact hall1 p hp hcb
        · rw [hp]
          have hcase : s1.retries = 0 ∨ s1.retries = 1 ∨ s1.retries = 2 := by omega
          rcases hcase with h0 | h0 | h0 <;> simp [h0]
    · refine ⟨?_, ?_⟩
      · simp [emit, setTimeout, rmSync, maxRetries, hr]
      · intro p hp hcb
        simp only [emit, setTimeout, rmSync, maxRetries, hr, if_false, List.mem_append,
          List.mem_singleton] at hp
        rcases hp with hp | hp
        · exact hall1 p hp hcb
        · rw [hp]
          simp
  · rw [h] at a
    simp only at a
    refine ⟨by simp, ?_⟩
    intro p hp hcb
    simp only [a.2.1] at hp
    exact hall p hp hcb

theorem step_bounded (toDataURL : String → Except String String) (i : Input)
    (s : System W) (hb : RetryBounded s) : RetryBounded (step toDataURL i s) := by
  obtain ⟨hle, hall⟩ := hb
  cases i with
  | qr code =>
    have a := onQr_fields toDataURL code s
    exact ⟨by simp only [step]; rw [a.1]; exact hle,
      by simp only [step]; rw [a.2.1]; exact hall⟩
  | ready =>
    have a := onReady_fields s
    exact ⟨by simp only [step]; rw [a.2.2.1]; exact hle,
      by simp only [step]; rw [a.2.2.2.1]; exact hall⟩
  | authFailure msg =>
    refine ⟨by simpa [step, onAuthFailure, setTimeout, emit, rmSync] using hle, ?_⟩
    intro p hp hcb
    simp only [step, onAuthFailure, setTimeout, emit, rmSync, List.mem_append,
      List.mem_singleton] at hp
    rcases hp with hp | hp
    · exact hall p hp hcb
    · subst hp
      cases hcb
  | disconnected reason =>
    refine ⟨?_, ?_⟩
    · by_cases h : reason = "LOGOUT" ∨ reason = "BANNED" <;>
        simpa [step, onDisconnected, setTimeout, emit, rmSync, h] using hle
    · intro p hp hcb
      have hsched : (onDisconnected reason s).scheduled =
          s.scheduled ++ [(10000, Callback.clientInit)] := by
        by_cases h : reason = "LOGOUT" ∨ reason = "BANNED" <;>
          simp [onDisconnected, setTimeout, emit, rmSync, h]
      simp only [step, hsched, List.mem_append, List.mem_singleton] at hp
      rcases hp with hp | hp
      · exact hall p hp hcb
      · subst hp
        cases hcb
  | error err =>
    exact ⟨by simpa [step, onError, emit] using hle,
      by simpa [step, onError, emit] using hall⟩
  | retryTimer => exact startWithRetry_bounded s ⟨hle, hall⟩
  | initTimer =>
    have a := awaitInit_fields s
    exact ⟨by simp only [step, clientInit]; rw [a.1]; exact hle,
      by simp only [step, clientInit]; rw [a.2.1]; exact hall⟩
  | disconnect =>
    have a := disconnect_fields s
    exact ⟨by simp only [step]; rw [a.1]; exact hle,
      by simp only [step]; rw [a.2.1]; exact hall⟩

theorem run_bounded (toDataURL : String → Except String String) (inputs : List Input) :
    ∀ s : System W, RetryBounded s → RetryBounded (run toDataURL inputs s) := by
  induction inputs with
  | nil =>
    intro s hb
    exact hb
  | cons i rest ih =>
    intro s hb
    exact ih _ (step_bounded toDataURL i s hb)

theorem step_challengeStored (toDataURL : String → Except String String) (i : Input)
    (s : System W) (hs : ChallengeStored s) : ChallengeStored (step toDataURL i s) := by
  unfold ChallengeStored at *
  cases i with
  | qr code =>
    have a := onQr_fields toDataURL code s
    intro _
    simp only [step]
    rw [a.2.2.2]
    simp
  | ready =>
    have a := onReady_fields s
    intro h
    simp only [step] at h
    rw [a.1] at h
    exact absurd h (by decide)
  | authFailure msg =>
    intro h
    simp [step, onAuthFailure, setTimeout, emit, rmSync] at h
  | disconnected reason =>
    intro h
    by_cases hr : reason = "LOGOUT" ∨ reason = "BANNED" <;>
      simp [step, onDisconnected, setTimeout, emit, rmSync, hr] at h
  | error err =>
    intro h
    simp [step, onError, emit] at h
  | retryTimer =>
    have a := startWithRetry_status s
    intro h
    simp only [step] at h ⊢
    rw [a.1]
    rcases a.2 with h1 | h1
    · exact hs (h1 ▸ h)
    · rw [h1] at h
      exact absurd h (by decide)
  | initTimer =>
    have a := awaitInit_fields s
    intro h
    simp only [step, clientInit] at h ⊢
    rw [a.2.2.2]
    exact hs (a.2.2.1 ▸ h)
  | disconnect =>
    have a := disconnect_fields s
    intro h
    simp only [step] at h ⊢
    rw [a.2.2.1]
    rcases a.2.2.2 with h1 | h1
    · exact hs (h1 ▸ h)
    · rw [h1] at h
      exact absurd h (by decide)

theorem run_challengeStored (toDataURL : String → Except String String)
    (inputs : List Input) :
    ∀ s : System W, ChallengeStored s → ChallengeStored (run toDataURL inputs s) := by
  induction inputs with
  | nil =>
    intro s hs
    exact hs
  | cons i rest ih =>
    intro s hs
    exact ih _ (step_challengeStored toDataURL i s hs)

/-- C17 (as stated) fails: from the initial state, a `qr` event followed by a
`disconnected` event leaves the state `disconnected` with the challenge still
stored. -/
theorem challenge_kept_after_disconnected :
    (run demoDataURL [Input.qr "2@Zk9", Input.disconnected "NAVIGATION"]
        demoSystem).clientStatus = "disconnected" ∧
      (run demoDataURL [Input.qr "2@Zk9", Input.disconnected "NAVIGATION"]
        demoSystem).qrCode = some "2@Zk9" := by
  constructor <;> rfl

/-- C17 (as the code behaves): in every state reached from a state `disconnected`
(the initial state, which has no challenge, in particular) by any sequence of driver
events, timer firings and `disconnect` calls, a challenge is stored whenever the
tracked state is `awaiting-authentication`; a `ready` event, the one transition to
`connected`, clears the stored challenge; and the transitions to `disconnected`,
`auth-failure` and `error` (the three driver events), a run of `startWithRetry`, the
re-initialisation timer and a call of `disconnect` leave the stored challenge exactly
as it was. -/
theorem challenge_stored_while_awaiting (toDataURL : String → Except String String)
    (inputs : List Input) (s : System W) (hs : s.clientStatus = "disconnected") :
    ((run toDataURL inputs s).clientStatus = "awaiting-authentication" →
      (run toDataURL inputs s).qrCode ≠ none) ∧
    (step toDataURL Input.ready (run toDataURL inputs s)).clientStatus = "connected" ∧
    (step toDataURL Input.ready (run toDataURL inputs s)).qrCode = none ∧
    (∀ reason,
      (step toDataURL (Input.disconnected reason) (run toDataURL inputs s)).clientStatus =
        "disconnected" ∧
      (step toDataURL (Input.disconnected reason) (run toDataURL inputs s)).qrCode =
        (run toDataURL inputs s).qrCode) ∧
    (∀ msg,
      (step toDataURL (Input.authFailure msg) (run toDataURL inputs s)).clientStatus =
        "auth-failure" ∧
      (step toDataURL (Input.authFailure msg) (run toDataURL inputs s)).qrCode =
        (run toDataURL inputs s).qrCode) ∧
    (∀ err,
      (step toDataURL (Input.error err) (run toDataURL inputs s)).clientStatus = "error" ∧
      (step toDataURL (Input.error err) (run toDataURL inputs s)).qrCode =
        (run toDataURL inputs s).qrCode) ∧
    (step toDataURL Input.retryTimer (run toDataURL inputs s)).qrCode =
      (run toDataURL inputs s).qrCode ∧
    (step toDataURL Input.initTimer (run toDataURL inputs s)).qrCode =
      (run toDataURL inputs s).qrCode ∧
    (step toDataURL Input.disconnect (run toDataURL inputs s)).qrCode =
      (run toDataURL inputs s).qrCode := by
  have h0 : ChallengeStored s := by
    intro h
    rw [hs] at h
    exact absurd h (by decide)
  have a := onReady_fields (run toDataURL inputs s)
  refine ⟨run_challengeStored toDataURL inputs s h0, a.1, a.2.1, ?_, ?_, ?_,
    (startWithRetry_status _).1, (awaitInit_fields _).2.2.2, (disconnect_fields _).2.2.1⟩
  · intro reason
    by_cases h : reason = "LOGOUT" ∨ reason = "BANNED" <;>
      simp [step, onDisconnected, setTimeout, emit, rmSync, h]
  · intro msg
    simp [step, onAuthFailure, setTimeout, emit, rmSync]
  · intro err
    simp [step, onError, emit]

theorem challenge_stored_while_awaiting_witness :
    (run demoDataURL [Input.error "Session closed", Input.qr "2@Zk9"]
        demoSystem).qrCode = some "2@Zk9" ∧
    (step demoDataURL Input.ready
      (run demoDataURL [Input.error "Session closed", Input.qr "2@Zk9"]
        demoSystem)).qrCode = none ∧
    (step demoDataURL (Input.disconnected "LOGOUT")
      (run demoDataURL [Input.error "Session closed", Input.qr "2@Zk9"]
        demoSystem)).qrCode =
      (run demoDataURL [Input.error "Session closed", Input.qr "2@Zk9"]
        demoSystem).qrCode ∧
    (step demoDataURL (Input.error "Session closed")
      (run demoDataURL [Input.error "Session closed", Input.qr "2@Zk9"]
        demoSystem)).qrCode =
      (run demoDataURL [Input.error "Session closed", Input.qr "2@Zk9"]
        demoSystem).qrCode :=
  ⟨by rfl,
   (challenge_stored_while_awaiting demoDataURL
     [Input.error "Session closed", Input.qr "2@Zk9"] demoSystem rfl).2.2.1,
   ((challenge_stored_while_awaiting demoDataURL
     [Input.error "Session closed", Input.qr "2@Zk9"] demoSystem rfl).2.2.2.1 "LOGOUT").2,
   ((challenge_stored_while_awaiting demoDataURL
     [Input.error "Session closed", Input.qr "2@Zk9"] demoSystem rfl).2.2.2.2.2.1
       "Session closed").2⟩

/-- C20: in every state reached from `retries = 0` by any sequence of runs of
`startWithRetry` (whatever the outcome of each `initialize()`), driver events, other
timer firings and `disconnect` calls, `retries ≤ 3` (and `0 ≤ retries`, a natural
number), and every delay scheduled with the callback `startWithRetry` is 20 000,
40 000, 60 000 or 1 800 000 ms: none exceeds 60 s but the cooldown, and 10 000 ms is
never used. -/
theorem retries_bounded (toDataURL : String → Except String String)
    (inputs : List Input) (s : System W) (h0 : s.retries = 0) (hs : s.scheduled = []) :
    (run toDataURL inputs s).retries ≤ 3 ∧
    ∀ p ∈ (run toDataURL inputs s).scheduled, p.2 = Callback.startWithRetry →
      p.1 = 20000 ∨ p.1 = 40000 ∨ p.1 = 60000 ∨ p.1 = 1800000 := by
  have hb : RetryBounded s := by
    refine ⟨by omega, ?_⟩
    intro p hp
    rw [hs] at hp
    cases hp
  exact run_bounded toDataURL inputs s hb

theorem retries_bounded_witness :
    retryDelays (run demoDataURL
        [Input.retryTimer, Input.retryTimer, Input.authFailure "auth timeout",
         Input.retryTimer, Input.retryTimer, Input.retryTimer]
        { demoSystem with client := some brokenClient }) =
        [20000, 40000, 60000, 1800000, 20000] ∧
    ((run demoDataURL
        [Input.retryTimer, Input.retryTimer, Input.authFailure "auth timeout",
         Input.retryTimer, Input.retryTimer, Input.retryTimer]
        { demoSystem with client := some brokenClient }).retries ≤ 3 ∧
      ∀ p ∈ (run demoDataURL
          [Input.retryTimer, Input.retryTimer, Input.authFailure "auth timeout",
           Input.retryTimer, Input.retryTimer, Input.retryTimer]
          { demoSystem with client := some brokenClient }).scheduled,
        p.2 = Callback.startWithRetry →
          p.1 = 20000 ∨ p.1 = 40000 ∨ p.1 = 60000 ∨ p.1 = 1800000) :=
  ⟨by rfl,
   retries_bounded demoDataURL
     [Input.retryTimer, Input.retryTimer, Input.authFailure "auth timeout",
      Input.retryTimer, Input.retryTimer, Input.retryTimer]
     { demoSystem with client := some brokenClient } rfl rfl⟩

end LucoApi
